import Mathlib

/-!
Verification development for the Massa lending-pool contracts.

The definitions below are a shallow embedding of the AssemblyScript sources:
`u256` values are modelled as `Nat` with explicit wrapping `% 2^256` exactly
where the source wraps, `u64`/`u32` values as `Nat` with `% 2^64` / `% 2^32`
where the source wraps, and every `assert` in the source becomes an
`Except.error`, so a returned `.ok` models a call that did not abort and an
`.error` models an aborted (fully rolled back) call.
-/

/-- 2^256, the wrap modulus of the `u256` type. -/
def U256MOD : Nat := 2 ^ 256

/-- 2^64, the wrap modulus of the `u64` type. -/
def U64MOD : Nat := 2 ^ 64

/-- 2^32, the wrap modulus of the `u32` type. -/
def U32MOD : Nat := 2 ^ 32

/-- u64.MAX_VALUE. -/
def U64MAX : Nat := 2 ^ 64 - 1

/-- `PRICE_PRECISION = 1e18`, the 18-decimal fixed-point unit of the contract. -/
def PRICE_PRECISION : Nat := 1000000000000000000

/-- `SECONDS_PER_YEAR = 31557600` as used by the interest-rate model. -/
def SECONDS_PER_YEAR : Nat := 31557600

/-- Aborting `assert`: `.ok ()` when the condition holds, `.error msg` otherwise. -/
def requireB (cond : Bool) (msg : String) : Except String Unit :=
  if cond then .ok () else .error msg

namespace SafeMath

/-!
First `SafeMath` variant (the one imported next to the main lending-pool
contract): `add`/`sub` assert, `mul` delegates to the wrapping `u256.mul`
with no overflow assert, `div` asserts a positive divisor and computes the
quotient by a u64 fast path plus a repeated-subtraction fallback.
-/

/-- `SafeMath.add`: wrapping u256 addition plus the `result >= a` overflow assert. -/
def add (a b : Nat) : Except String Nat :=
  let result := (a + b) % U256MOD
  if a ≤ result then .ok result else .error "SafeMath: addition overflow"

/-- `SafeMath.sub`: asserts `b <= a`, then exact subtraction. -/
def sub (a b : Nat) : Except String Nat :=
  if b ≤ a then .ok (a - b) else .error "SafeMath: subtraction underflow"

/-- `SafeMath.mul` (first variant): returns zero for a zero first factor and
otherwise the silently wrapping `u256.mul` product — there is no overflow assert. -/
def mul (a b : Nat) : Nat :=
  if a = 0 then 0 else (a * b) % U256MOD

/-- The repeated-subtraction loop of the first variant's `div`; the `0 < b`
conjunct mirrors the assert that guards the loop in the source (the loop is
only ever entered with a positive divisor). Returns (remainder, result). -/
def divLoop (b remainder result : Nat) : Nat × Nat :=
  if h : b ≤ remainder ∧ 0 < b then
    divLoop b (remainder - b) (result + 1)
  else
    (remainder, result)
termination_by remainder
decreasing_by
  exact Nat.sub_lt (Nat.lt_of_lt_of_le h.2 h.1) h.2

/-- `SafeMath.div` (first variant), source-literal form: assert positive
divisor; `a < b → 0`, `a = b → 1`, u64 fast path, else repeated subtraction. -/
def divSrc (a b : Nat) : Except String Nat :=
  if ¬ 0 < b then .error "SafeMath: division by zero"
  else if a < b then .ok 0
  else if a = b then .ok 1
  else if a ≤ U64MAX ∧ b ≤ U64MAX then .ok (a / b)
  else .ok (divLoop b a 0).2

/-- `SafeMath.div` (first variant), evaluable form: each of `divSrc`'s four
computation paths returns exactly `⌊a / b⌋`, so the function is the checked
floor division; `divSrc_eq_div` below proves the two forms equal, and the
rest of the development uses this form so that concrete runs of the contract
do not have to execute the repeated-subtraction loop. -/
def div (a b : Nat) : Except String Nat :=
  if ¬ 0 < b then .error "SafeMath: division by zero"
  else .ok (a / b)

/-- `SafeMath.mod` (first variant): `a - (a / b) * b` via the checked ops. -/
def mod (a b : Nat) : Except String Nat :=
  if ¬ 0 < b then .error "SafeMath: modulo by zero"
  else do
    let quotient ← div a b
    let product := mul quotient b
    sub a product

/-- `SafeMath.min`. -/
def minN (a b : Nat) : Nat := if a < b then a else b

/-- `SafeMath.max`. -/
def maxN (a b : Nat) : Nat := if a > b then a else b

/-- `SafeMath.mulBP`: `value * basisPoints / 10000` via `mul` and `div`. -/
def mulBP (value basisPoints : Nat) : Except String Nat :=
  if value = 0 ∨ basisPoints = 0 then .ok 0
  else div (mul value basisPoints) 10000

/-- `SafeMath.divBP`: `value * 10000 / basisPoints`. -/
def divBP (value basisPoints : Nat) : Except String Nat :=
  if ¬ 0 < basisPoints then .error "SafeMath: division by zero basis points"
  else div (mul value 10000) basisPoints

/-- `SafeMath.percentage`: `value * numerator / denominator`. -/
def percentage (value numerator denominator : Nat) : Except String Nat :=
  if ¬ 0 < denominator then .error "SafeMath: percentage division by zero"
  else if value = 0 ∨ numerator = 0 then .ok 0
  else div (mul value numerator) denominator

end SafeMath

namespace SafeMathB

/-!
Second `SafeMath` variant (the `Constants`-importing one in the sources):
identical `add`/`sub`, but `mul` asserts no overflow via a division check and
`div`/`mod` use the native u256 operations.
-/

/-- `SafeMath.add` (second variant). -/
def add (a b : Nat) : Except String Nat :=
  let c := (a + b) % U256MOD
  if a ≤ c then .ok c else .error "SafeMath: addition overflow"

/-- `SafeMath.sub` (second variant). -/
def sub (a b : Nat) : Except String Nat :=
  if b ≤ a then .ok (a - b) else .error "SafeMath: subtraction underflow"

/-- `SafeMath.mul` (second variant): wrapping product, then asserts
`c / a = b`, which rejects any wrapped result. -/
def mul (a b : Nat) : Except String Nat :=
  if a = 0 then .ok 0
  else
    let c := (a * b) % U256MOD
    if c / a = b then .ok c else .error "SafeMath: multiplication overflow"

/-- `SafeMath.div` (second variant): native u256 division. -/
def div (a b : Nat) : Except String Nat :=
  if 0 < b then .ok (a / b) else .error "SafeMath: division by zero"

/-- `SafeMath.mod` (second variant): native u256 remainder. -/
def mod (a b : Nat) : Except String Nat :=
  if b ≠ 0 then .ok (a % b) else .error "SafeMath: modulo by zero"

/-- `SafeMath.mulBP` (second variant). -/
def mulBP (value basisPoints : Nat) : Except String Nat :=
  if value = 0 ∨ basisPoints = 0 then .ok 0
  else do
    let p ← mul value basisPoints
    div p 10000

/-- `SafeMath.divBP` (second variant). -/
def divBP (value basisPoints : Nat) : Except String Nat :=
  if ¬ 0 < basisPoints then .error "SafeMath: division by zero basis points"
  else do
    let p ← mul value 10000
    div p basisPoints

/-- `SafeMath.percentage` (second variant). -/
def percentage (value numerator denominator : Nat) : Except String Nat :=
  if ¬ 0 < denominator then .error "SafeMath: percentage division by zero"
  else if value = 0 ∨ numerator = 0 then .ok 0
  else do
    let p ← mul value numerator
    div p denominator

end SafeMathB

namespace InterestRateModel

/-- `calculateUtilization`: 0 when deposits are zero, else
`min(10000, totalBorrows * 10000 / totalDeposits)`; the source converts the
capped u256 through `toU64` and `u32`, embedded as the matching truncations. -/
def calculateUtilization (totalBorrows totalDeposits : Nat) : Except String Nat :=
  if totalDeposits = 0 then .ok 0
  else do
    let utilization ← SafeMath.div (SafeMath.mul totalBorrows 10000) totalDeposits
    if 10000 < utilization then pure 10000
    else pure (utilization % U64MOD % U32MOD)

/-- u32 subtraction with wrap-around (the operands are u32 values in the source). -/
def u32sub (a b : Nat) : Nat := (a % U32MOD + U32MOD - b % U32MOD) % U32MOD

/-- `calculateBorrowRate`: the two-slope curve over u32 arithmetic; u32
multiplications and additions wrap mod 2^32, u32 division by zero aborts. -/
def calculateBorrowRate (utilizationRate baseRate optimalUtilization slope1 slope2 : Nat) :
    Except String Nat :=
  if utilizationRate = 0 then .ok baseRate
  else if utilizationRate ≤ optimalUtilization then
    if optimalUtilization = 0 then .error "u32 division by zero"
    else .ok ((baseRate + utilizationRate * slope1 % U32MOD / optimalUtilization) % U32MOD)
  else
    let excessUtilization := utilizationRate - optimalUtilization
    let maxExcessUtilization := u32sub 10000 optimalUtilization
    if maxExcessUtilization = 0 then .error "u32 division by zero"
    else .ok (((baseRate + slope1) % U32MOD + excessUtilization * slope2 % U32MOD / maxExcessUtilization) % U32MOD)

/-- `calculateAccruedInterest`: `principal * rate * (timeDelta/1000) /
(10000 * SECONDS_PER_YEAR)` over the first SafeMath variant. -/
def calculateAccruedInterest (principal rate timeDelta : Nat) : Except String Nat :=
  if principal = 0 ∨ rate = 0 ∨ timeDelta = 0 then .ok 0
  else
    let timeInSeconds := timeDelta / 1000
    let numerator := SafeMath.mul (SafeMath.mul principal rate) timeInSeconds
    let denominator := SafeMath.mul 10000 SECONDS_PER_YEAR
    SafeMath.div numerator denominator

/-- `calculateBalanceWithInterest`: principal plus accrued simple interest;
every call site passes `Context.timestamp()` as `currentTime`, so the
source's 0-defaulting of `now` resolves to that same timestamp. -/
def calculateBalanceWithInterest (principal rate lastUpdateTime currentTime : Nat) :
    Except String Nat :=
  let now := currentTime
  if now ≤ lastUpdateTime then .ok principal
  else do
    let interest ← calculateAccruedInterest principal rate (now - lastUpdateTime)
    SafeMath.add principal interest

/-- `validateParameters` for the interest-rate curve. -/
def validateParameters (baseRate optimalUtilization slope1 slope2 : Nat) : Bool :=
  if 5000 < baseRate then false
  else if optimalUtilization < 5000 ∨ 9500 < optimalUtilization then false
  else if slope1 = 0 ∨ 10000 < slope1 then false
  else if slope2 = 0 ∨ 20000 < slope2 then false
  else true

end InterestRateModel

namespace BinHelper

/-!
First `BinHelper` variant (`src/smartcontract/assembly/libraries/BinHelper.ts`,
the module sitting at the `../libraries/BinHelper` import path of the main
contract): shift helpers built from additions/halvings, and a binary
exponentiation with no bound on the exponent magnitude.
-/

/-- `REAL_ID_SHIFT = 1 << 23`. -/
def REAL_ID_SHIFT : Nat := 8388608

/-- `SCALE_OFFSET = 128`. -/
def SCALE_OFFSET : Nat := 128

/-- `BASIS_POINT_MAX = 10000`. -/
def BASIS_POINT_MAX : Nat := 10000

/-- `leftShift`: repeated wrapping doubling, `bits` times. -/
def leftShift (value : Nat) : Nat → Nat
  | 0 => value
  | n + 1 => leftShift ((value + value) % U256MOD) n

/-- `rightShift`: repeated halving with the source's early exit (a value that
reaches 0 or 1 before the last iteration becomes 0); the halving is
`SafeMath.div` by the constant 2, which never aborts. -/
def rightShift (value : Nat) : Nat → Nat
  | 0 => value
  | n + 1 => if value ≤ 1 then 0 else rightShift (value / 2) n

/-- `_getBPValue`: `(1 << 128) + (binStep << 128) / 10000`. -/
def getBPValue (binStep : Nat) : Except String Nat :=
  if binStep ≠ 0 ∧ binStep ≤ BASIS_POINT_MAX then do
    let one := leftShift 1 SCALE_OFFSET
    let stepScaled := leftShift binStep SCALE_OFFSET
    let increment ← SafeMath.div stepScaled BASIS_POINT_MAX
    pure ((one + increment) % U256MOD)
  else .error "BinHelper: Bin step overflows"

/-- The binary-exponentiation loop of the first variant's `power`:
`result`/`currentBase` are 128.128 values, multiplications wrap mod 2^256 and
are then shifted down by 128 bits. The loop runs `while exp > 0` with `exp`
halved each iteration; `exp` is an `i64` magnitude (< 2^63), so 64
iterations always reach 0 and the structural fuel below never runs out. -/
def powerLoop : (fuel : Nat) → (result currentBase exp : Nat) → Nat
  | 0, result, _, _ => result
  | fuel + 1, result, currentBase, exp =>
    if exp = 0 then result
    else
      powerLoop fuel
        (if exp % 2 = 1 then rightShift (result * currentBase % U256MOD) SCALE_OFFSET else result)
        (rightShift (currentBase * currentBase % U256MOD) SCALE_OFFSET)
        (exp / 2)

/-- `power` (first variant): binary exponentiation on `|exponent|`, inverting
as `(1 << 256) / result` for a negative exponent; there is no check on the
exponent magnitude. -/
def power (base : Nat) (exponent : Int) : Except String Nat :=
  if exponent = 0 then .ok (leftShift 1 SCALE_OFFSET)
  else
    let result := powerLoop 64 (leftShift 1 SCALE_OFFSET) base exponent.natAbs
    if exponent < 0 then
      SafeMath.div (leftShift 1 (SCALE_OFFSET * 2)) result
    else .ok result

/-- `getPriceFromId` (first variant): asserts `id ≤ u32.MAX_VALUE`, then
`power(_getBPValue(binStep), id - REAL_ID_SHIFT)`. -/
def getPriceFromId (id binStep : Nat) : Except String Nat :=
  if id ≤ U32MOD - 1 then do
    let realId : Int := (id : Int) - (REAL_ID_SHIFT : Int)
    let bpValue ← getBPValue binStep
    power bpValue realId
  else .error "BinHelper: ID overflows"

/-- `toDecimal18` (first variant): `(fixedPoint * 1e18) / 2^128` with a
wrapping multiplication. -/
def toDecimal18 (fixedPoint : Nat) : Except String Nat :=
  SafeMath.div (fixedPoint * 1000000000000000000 % U256MOD) (leftShift 1 SCALE_OFFSET)

/-- `calculateTWAP`: `(sample2 - sample1) / timeDelta` after the positivity
and ordering asserts. -/
def calculateTWAP (sample1 sample2 timeDelta : Nat) : Except String Nat :=
  if ¬ 0 < timeDelta then .error "BinHelper: Time delta must be positive"
  else if ¬ sample1 ≤ sample2 then .error "BinHelper: Invalid sample order"
  else .ok ((sample2 - sample1) / timeDelta)

end BinHelper

namespace BinHelperB

/-!
Second `BinHelper` variant (the `Constants`-importing one in the sources).
The numeric constants come from the absent `Constants` module; their values
(`ONE_128128 = 1 << 128`, `MAX_U128 = 2^128 - 1`, `MAX = u256.Max`) are fixed
by the source comments ("It calculates 1 / x^abs(y) if x is bigger than
2^128") and the 128.128 fixed-point format stated in the doc comments.
-/

/-- 1.0 in 128.128 fixed point. -/
def ONE_128128 : Nat := 2 ^ 128

/-- Largest u128 value. -/
def MAX_U128 : Nat := 2 ^ 128 - 1

/-- Largest u256 value. -/
def MAX : Nat := 2 ^ 256 - 1

/-- `sqrShift`: `(v * v) >> 128` with a wrapping multiplication. -/
def sqrShift (v : Nat) : Nat := v * v % U256MOD / 2 ^ 128

/-- The binary-exponentiation loop of the second variant's `power`. The loop
runs `while absY != 0`, halving `absY` (an `i64` magnitude, < 2^63) each
iteration, so the structural fuel of 64 used below never runs out. -/
def powerLoopB : (fuel : Nat) → (result pow absY : Nat) → Nat
  | 0, result, _, _ => result
  | fuel + 1, result, pow, absY =>
    if absY = 0 then result
    else
      powerLoopB fuel
        (if absY % 2 = 1 then result * pow % U256MOD / 2 ^ 128 else result)
        (sqrShift pow)
        (absY / 2)

/-- `power` (second variant): asserts `|y| < 2^20`, replaces a base above
`2^128 - 1` by `MAX / x` (flipping the inversion flag), runs binary
exponentiation, rejects a zero result, and inverts as `MAX / result` when
required. -/
def power (x : Nat) (y : Int) : Except String Nat :=
  if y = 0 then .ok ONE_128128
  else
    let invert0 := decide (y < 0)
    let absY := y.natAbs
    if ¬ absY < 0x100000 then .error "BinHelper: Power underflow"
    else
      let pow := if MAX_U128 < x then MAX / x else x
      let invert := if MAX_U128 < x then !invert0 else invert0
      let result := powerLoopB 64 ONE_128128 pow absY
      if result = 0 then .error "BinHelper: Power underflow"
      else .ok (if invert then MAX / result else result)

end BinHelperB

/-! ## Contract state model

The durable key-value storage of the lending pool, with one field per storage
class / `SimpleStorage` key of the contract. Unset keys read as the default
the storage helpers return (`0`, `false`, the empty list); the supply index
defaults to `1e18` per the spec ("starts at 1.0, scaled 1e18") since the
storage module defining `SupplyIndexStorage` is not among the sources, but no
theorem below depends on that default. -/

/-- Pointwise update of a one-key storage map. -/
def upd1 {α : Type} (m : String → α) (t : String) (v : α) : String → α :=
  fun t0 => if t0 = t then v else m t0

/-- Pointwise update of a (user, token)-keyed storage map. -/
def upd2 {α : Type} (m : String → String → α) (u t : String) (v : α) : String → String → α :=
  fun u0 t0 => if u0 = u ∧ t0 = t then v else m u0 t0

structure State where
  userCollateral : String → String → Nat
  userDebt : String → String → Nat
  userLastUpdate : String → String → Nat
  userSupplyIndex : String → String → Nat
  userAssets : String → List String
  supportedAssets : String → Bool
  assetPrice : String → Nat
  totalCollateral : String → Nat
  totalBorrows : String → Nat
  supplyIndex : String → Nat
  supplyIndexLastUpdate : String → Nat
  treasuryReserves : String → Nat
  pairAddress : String → String
  owner : String
  treasuryAddress : String
  paused : Bool
  reentrancy : Bool
  flashLoanEnabled : Bool
  baseRate : Nat
  optimalUtil : Nat
  slope1 : Nat
  slope2 : Nat
  collateralFactor : Nat
  liquidationThreshold : Nat
  closeFactor : Nat
  liquidationBonusMin : Nat
  liquidationBonusMax : Nat
  reserveFactor : Nat
  flashLoanFee : Nat
  twapPeriod : Nat
  priceMaxAge : Nat

/-- The host context and external collaborators an operation runs against:
caller identity, current timestamp (milliseconds), per-token `decimals()`,
the contract's own token balance (read by the flash loan), and the oracle
pair's cumulative-id samples and bin step. -/
structure Env where
  caller : String
  timestamp : Nat
  decimals : String → Nat
  balanceOf : String → Nat
  oracleCumulativeId : String → Nat → Nat
  binStep : String → Nat

/-- The derived account-health snapshot. -/
structure AccountHealth where
  totalCollateralValue : Nat
  totalBorrowValue : Nat
  healthFactor : Nat
  isHealthy : Bool
deriving DecidableEq, Repr

/-- Modelled from the spec: `TreasuryReservesStorage.add` (its storage module
is not among the sources). Per the spec the amount is "added to treasury
reserves"; modelled as the library's checked addition onto the stored
per-asset reserve. -/
def treasuryAdd (s : State) (tokenAddress : String) (amount : Nat) : Except String State := do
  let r ← SafeMath.add (s.treasuryReserves tokenAddress) amount
  pure { s with treasuryReserves := upd1 s.treasuryReserves tokenAddress r }

/-- Modelled from the spec: `UserAssetsStorage.removeAsset` (absent from the
storage-module variant among the sources). Per the spec the asset is
"removed from the user's asset membership list". -/
def removeAsset (s : State) (user tokenAddress : String) : State :=
  { s with userAssets := upd1 s.userAssets user ((s.userAssets user).filter (fun a => a ≠ tokenAddress)) }

/-- `UserAssetsStorage.addAsset`: append the token if it is not yet present. -/
def addAsset (s : State) (user tokenAddress : String) : State :=
  if tokenAddress ∈ s.userAssets user then s
  else { s with userAssets := upd1 s.userAssets user (s.userAssets user ++ [tokenAddress]) }

/-- `_updateSupplyIndex`: accrues the global supply index of an asset up to
the current timestamp (lines 1037-1105 of the main contract). -/
def updateSupplyIndex (env : Env) (s : State) (tokenAddress : String) : Except String State :=
  let lastUpdate := s.supplyIndexLastUpdate tokenAddress
  let currentTime := env.timestamp
  if currentTime ≤ lastUpdate then .ok s
  else
    let totalCollateral := s.totalCollateral tokenAddress
    let totalBorrows := s.totalBorrows tokenAddress
    if totalCollateral = 0 ∨ totalBorrows = 0 then
      .ok { s with supplyIndexLastUpdate := upd1 s.supplyIndexLastUpdate tokenAddress currentTime }
    else do
      let utilization ← InterestRateModel.calculateUtilization totalBorrows totalCollateral
      let borrowRate ← InterestRateModel.calculateBorrowRate utilization
        s.baseRate s.optimalUtil s.slope1 s.slope2
      let supplyRateFactor := InterestRateModel.u32sub 10000 s.reserveFactor
      let supplyRate := borrowRate * utilization % U32MOD * supplyRateFactor % U32MOD / 100000000
      if supplyRate = 0 then
        .ok { s with supplyIndexLastUpdate := upd1 s.supplyIndexLastUpdate tokenAddress currentTime }
      else
        let timeDelta := currentTime - lastUpdate
        if timeDelta = 0 then .ok s
        else do
          let currentIndex := s.supplyIndex tokenAddress
          let timeInSeconds := timeDelta / 1000
          let numerator := SafeMath.mul (SafeMath.mul currentIndex supplyRate) timeInSeconds
          let denominator := SafeMath.mul SECONDS_PER_YEAR 10000
          let indexIncrease ← SafeMath.div numerator denominator
          let newIndex ← SafeMath.add currentIndex indexIncrease
          .ok { s with
                supplyIndex := upd1 s.supplyIndex tokenAddress newIndex,
                supplyIndexLastUpdate := upd1 s.supplyIndexLastUpdate tokenAddress currentTime }

/-- The reserve-factor skim inside `_accrueInterest` (lines 1157-1163): when
the reserve factor is positive, `mulBP` of the accrued interest goes to the
treasury. -/
def accrueInterestFee (s : State) (tokenAddress : String) (interestAccrued : Nat) :
    Except String State :=
  if 0 < s.reserveFactor then do
    let protocolFee ← SafeMath.mulBP interestAccrued s.reserveFactor
    treasuryAdd s tokenAddress protocolFee
  else pure s

/-- The `if (SafeMath.isPositive(interestAccrued))` block of `_accrueInterest`
(lines 1156-1170): skim the protocol fee, then fold the accrued interest into
`totalBorrows`. -/
def accrueInterestApply (s : State) (tokenAddress : String) (totalBorrows interestAccrued : Nat) :
    Except String State :=
  if 0 < interestAccrued then do
    let s' ← accrueInterestFee s tokenAddress interestAccrued
    let updatedTotalBorrows ← SafeMath.add totalBorrows interestAccrued
    pure { s' with totalBorrows := upd1 s'.totalBorrows tokenAddress updatedTotalBorrows }
  else pure s

/-- `_accrueInterest`: accrues interest on one user's debt, skims the reserve
factor into the treasury and folds the interest into `totalBorrows`
(lines 1112-1175). -/
def accrueInterest (env : Env) (s : State) (user tokenAddress : String) : Except String State :=
  let currentDebt := s.userDebt user tokenAddress
  if currentDebt = 0 then .ok s
  else
    let lastUpdate := s.userLastUpdate user tokenAddress
    let currentTime := env.timestamp
    if currentTime ≤ lastUpdate then .ok s
    else do
      let totalBorrows := s.totalBorrows tokenAddress
      let totalCollateral := s.totalCollateral tokenAddress
      let utilization ← InterestRateModel.calculateUtilization totalBorrows totalCollateral
      let borrowRate ← InterestRateModel.calculateBorrowRate utilization
        s.baseRate s.optimalUtil s.slope1 s.slope2
      let newDebt ← InterestRateModel.calculateBalanceWithInterest currentDebt borrowRate
        lastUpdate currentTime
      let interestAccrued ← SafeMath.sub newDebt currentDebt
      let s1 ← accrueInterestApply s tokenAddress totalBorrows interestAccrued
      pure { s1 with
             userDebt := upd2 s1.userDebt user tokenAddress newDebt,
             userLastUpdate := upd2 s1.userLastUpdate user tokenAddress currentTime }

/-- `_calculateCurrentSupplyIndex`: the read-only mirror of
`_updateSupplyIndex` used inside view/health computations (lines 1411-1471). -/
def calculateCurrentSupplyIndex (env : Env) (s : State) (tokenAddress : String) :
    Except String Nat :=
  let lastUpdate := s.supplyIndexLastUpdate tokenAddress
  let currentTime := env.timestamp
  let currentIndex := s.supplyIndex tokenAddress
  if currentTime ≤ lastUpdate then .ok currentIndex
  else
    let totalCollateral := s.totalCollateral tokenAddress
    let totalBorrows := s.totalBorrows tokenAddress
    if totalCollateral = 0 ∨ totalBorrows = 0 then .ok currentIndex
    else do
      let utilization ← InterestRateModel.calculateUtilization totalBorrows totalCollateral
      let borrowRate ← InterestRateModel.calculateBorrowRate utilization
        s.baseRate s.optimalUtil s.slope1 s.slope2
      let supplyRateFactor := InterestRateModel.u32sub 10000 s.reserveFactor
      let supplyRate := borrowRate * utilization % U32MOD * supplyRateFactor % U32MOD / 100000000
      if supplyRate = 0 then .ok currentIndex
      else
        let timeDelta := currentTime - lastUpdate
        if timeDelta = 0 then .ok currentIndex
        else do
          let timeInSeconds := timeDelta / 1000
          let numerator := SafeMath.mul (SafeMath.mul currentIndex supplyRate) timeInSeconds
          let denominator := SafeMath.mul SECONDS_PER_YEAR 10000
          let indexIncrease ← SafeMath.div numerator denominator
          SafeMath.add currentIndex indexIncrease

/-- The Dusa-oracle branch of `_getAssetPrice`: two cumulative-id samples,
TWAP bin id, bin price, 18-decimal conversion (lines 1330-1357). -/
def getAssetPriceOracle (env : Env) (s : State) (tokenAddress : String) : Except String Nat := do
  let pairAddress := s.pairAddress tokenAddress
  let twapPeriod := s.twapPeriod
  let sample1 := env.oracleCumulativeId pairAddress 0
  let sample2 := env.oracleCumulativeId pairAddress twapPeriod
  let avgBinId ← BinHelper.calculateTWAP sample2 sample1 twapPeriod
  let binStep := env.binStep pairAddress
  let priceFixedPoint ← BinHelper.getPriceFromId avgBinId binStep
  BinHelper.toDecimal18 priceFixedPoint

/-- `_getAssetPrice`: oracle TWAP price if a pair is configured and yields a
positive price, else the manually stored price, else zero (lines 1322-1371). -/
def getAssetPrice (env : Env) (s : State) (tokenAddress : String) : Except String Nat :=
  let storedPrice := s.assetPrice tokenAddress
  if s.pairAddress tokenAddress ≠ "" then do
    let price ← getAssetPriceOracle env s tokenAddress
    if 0 < price then pure price
    else if 0 < storedPrice then pure storedPrice
    else pure 0
  else if 0 < storedPrice then pure storedPrice
  else pure 0

/-- The collateral-normalization prefix of a `_calculateAccountHealth` loop
iteration: `storedCollateral * currentIndex / userIndex` when the stored
collateral is positive (lines 1200-1213). -/
def healthAssetCollateral (env : Env) (s : State) (user tokenAddress : String) :
    Except String Nat :=
  let storedCollateral := s.userCollateral user tokenAddress
  if 0 < storedCollateral then do
    let currentIndex ← calculateCurrentSupplyIndex env s tokenAddress
    let userIndex := s.userSupplyIndex user tokenAddress
    SafeMath.div (SafeMath.mul storedCollateral currentIndex) userIndex
  else pure storedCollateral

/-- The collateral-value accumulation of a `_calculateAccountHealth` loop
iteration (lines 1231-1241): normalize by the token's decimals and add to the
running total. -/
def healthCollateralValue (env : Env) (tokenAddress : String) (collateral price tcv : Nat) :
    Except String Nat :=
  if 0 < collateral then do
    let tokenPrecision := 10 ^ env.decimals tokenAddress % U64MOD
    let scaledCollateralValue ← SafeMath.div (SafeMath.mul collateral price) tokenPrecision
    SafeMath.add tcv scaledCollateralValue
  else pure tcv

/-- The in-place debt accrual of a `_calculateAccountHealth` loop iteration
(lines 1246-1275): project the stored debt forward to the current time. -/
def healthDebtWithInterest (env : Env) (s : State) (user tokenAddress : String) (debt : Nat) :
    Except String Nat :=
  let lastUpdate := s.userLastUpdate user tokenAddress
  if lastUpdate < env.timestamp then do
    let utilization ← InterestRateModel.calculateUtilization
      (s.totalBorrows tokenAddress) (s.totalCollateral tokenAddress)
    let borrowRate ← InterestRateModel.calculateBorrowRate utilization
      s.baseRate s.optimalUtil s.slope1 s.slope2
    InterestRateModel.calculateBalanceWithInterest debt borrowRate
      lastUpdate env.timestamp
  else pure debt

/-- The debt-value accumulation of a `_calculateAccountHealth` loop iteration
(lines 1243-1286). -/
def healthDebtValue (env : Env) (s : State) (user tokenAddress : String) (debt price tbv : Nat) :
    Except String Nat :=
  if 0 < debt then do
    let debtWithInterest ← healthDebtWithInterest env s user tokenAddress debt
    let tokenPrecision := 10 ^ env.decimals tokenAddress % U64MOD
    let scaledDebtValue ← SafeMath.div (SafeMath.mul debtWithInterest price) tokenPrecision
    SafeMath.add tbv scaledDebtValue
  else pure tbv

/-- One iteration of the `_calculateAccountHealth` loop over the user's asset
list, threading the (collateral value, borrow value) accumulator
(lines 1191-1287). -/
def healthStep (env : Env) (s : State) (user : String) (acc : Nat × Nat)
    (tokenAddress : String) : Except String (Nat × Nat) :=
  if s.supportedAssets tokenAddress = false then pure acc
  else do
    let collateral ← healthAssetCollateral env s user tokenAddress
    let debt := s.userDebt user tokenAddress
    let price ← getAssetPrice env s tokenAddress
    if 0 < debt ∧ price = 0 then
      .error ("Price not set for asset with debt: " ++ tokenAddress)
    else if price = 0 then pure acc
    else do
      let tcv ← healthCollateralValue env tokenAddress collateral price acc.1
      let tbv ← healthDebtValue env s user tokenAddress debt price acc.2
      pure (tcv, tbv)

/-- The `_calculateAccountHealth` loop over the user's asset membership list. -/
def healthFold (env : Env) (s : State) (user : String) :
    Nat × Nat → List String → Except String (Nat × Nat)
  | acc, [] => .ok acc
  | acc, t :: rest => do
    let acc1 ← healthStep env s user acc t
    healthFold env s user acc1 rest

/-- `_calculateAccountHealth` (lines 1182-1315): fold the per-asset values,
then derive the health factor — the `0xFFFFFFFF` sentinel and
`isHealthy = true` when there is no debt, else
`mulBP(totalCollateralValue, liquidationThreshold) * 1e18 / totalBorrowValue`
and `isHealthy = (healthFactor ≥ 1e18)`. -/
def calcAccountHealth (env : Env) (s : State) (user : String) : Except String AccountHealth := do
  let acc ← healthFold env s user (0, 0) (s.userAssets user)
  let totalCollateralValue := acc.1
  let totalBorrowValue := acc.2
  if totalBorrowValue = 0 then
    pure ⟨totalCollateralValue, totalBorrowValue, 0xFFFFFFFF, true⟩
  else do
    let adjustedCollateral ← SafeMath.mulBP totalCollateralValue s.liquidationThreshold
    let hf ← SafeMath.div (SafeMath.mul adjustedCollateral PRICE_PRECISION) totalBorrowValue
    pure ⟨totalCollateralValue, totalBorrowValue, hf, decide (PRICE_PRECISION ≤ hf)⟩

/-- `_calculateLiquidationBonus` (lines 891-926): `minBonus` at or above a
1.0 health factor, `maxBonus` at or below 0.5, linear interpolation in
between, over u32/u256 arithmetic with the source's truncations. -/
def calcLiquidationBonus (s : State) (healthFactor : Nat) : Except String Nat :=
  let minBonus := s.liquidationBonusMin
  let maxBonus := s.liquidationBonusMax
  if PRICE_PRECISION ≤ healthFactor then .ok minBonus
  else do
    let halfPrecision ← SafeMath.div PRICE_PRECISION 2
    if healthFactor ≤ halfPrecision then pure maxBonus
    else do
      let bonusRange := InterestRateModel.u32sub maxBonus minBonus
      let hfAboveHalf ← SafeMath.sub healthFactor halfPrecision
      let numerator := SafeMath.mul hfAboveHalf bonusRange
      let bonusReductionU256 ← SafeMath.div numerator halfPrecision
      let bonusReduction := bonusReductionU256 % U64MOD % U32MOD
      if InterestRateModel.u32sub maxBonus minBonus ≤ bonusReduction then pure minBonus
      else pure (InterestRateModel.u32sub maxBonus bonusReduction)

/-! ## Entry points

Each exported contract function becomes a `State`-transformer returning
`Except String State`; external token transfers and callbacks are collaborator
calls outside the ledger and appear only through the `Env` inputs that the
contract actually reads back (balances, callback success). A returned
`.error` models an aborted host transaction: no state change survives. -/

/-- `onlyOwner`. -/
def onlyOwnerCheck (env : Env) (s : State) : Except String Unit :=
  requireB (env.caller == s.owner) "Only owner can call this function"

/-- The `MAX_ASSETS_PER_USER` guard (lines 549-552 and 781-784): a user who
does not yet hold this asset may only add it while below the 10-asset cap. -/
def assetLimitCheck (s : State) (caller tokenAddress : String) : Except String Unit :=
  if tokenAddress ∈ s.userAssets caller then pure ()
  else requireB (decide ((s.userAssets caller).length < 10)) "Maximum assets per user exceeded"

/-- The existing-collateral accrual inside `depositCollateral`
(lines 528-541): a depositor with existing collateral has it normalized by
the index before the new amount is added. -/
def depositNewCollateral (s : State) (caller tokenAddress : String) (amount currentIndex : Nat) :
    Except String Nat :=
  let currentCollateral := s.userCollateral caller tokenAddress
  if 0 < currentCollateral then do
    let userIndex := s.userSupplyIndex caller tokenAddress
    let actualCollateral ← SafeMath.div (SafeMath.mul currentCollateral currentIndex) userIndex
    SafeMath.add actualCollateral amount
  else pure amount

/-- `depositCollateral` (lines 503-571). -/
def depositCollateral (env : Env) (s : State) (tokenAddress : String) (amount : Nat) :
    Except String State := do
  requireB (!s.paused) "Contract is paused"
  requireB (!s.reentrancy) "Reentrant call"
  let s := { s with reentrancy := true }
  requireB (s.supportedAssets tokenAddress) "Asset not supported"
  requireB (decide (0 < amount)) "Amount must be greater than zero"
  let caller := env.caller
  let currentTime := env.timestamp
  let s ← updateSupplyIndex env s tokenAddress
  -- token.transferFrom(caller, callee, amount): external call
  let currentIndex := s.supplyIndex tokenAddress
  let newCollateral ← depositNewCollateral s caller tokenAddress amount currentIndex
  let s := { s with userCollateral := upd2 s.userCollateral caller tokenAddress newCollateral }
  let s := { s with userSupplyIndex := upd2 s.userSupplyIndex caller tokenAddress currentIndex }
  assetLimitCheck s caller tokenAddress
  let s := addAsset s caller tokenAddress
  let tc ← SafeMath.add (s.totalCollateral tokenAddress) amount
  let s := { s with totalCollateral := upd1 s.totalCollateral tokenAddress tc }
  let s := { s with userLastUpdate := upd2 s.userLastUpdate caller tokenAddress currentTime }
  pure { s with reentrancy := false }

/-- The prefix of `withdrawCollateral` up to the point where the
account-health check runs (lines 577-615): index update, collateral
normalization and sufficiency check, debt accrual, collateral/user-index
writes. -/
def withdrawPre (env : Env) (s : State) (tokenAddress : String) (amount : Nat) :
    Except String State := do
  requireB (!s.paused) "Contract is paused"
  requireB (!s.reentrancy) "Reentrant call"
  let s := { s with reentrancy := true }
  let caller := env.caller
  let s ← updateSupplyIndex env s tokenAddress
  let currentIndex := s.supplyIndex tokenAddress
  let storedCollateral := s.userCollateral caller tokenAddress
  let userIndex := s.userSupplyIndex caller tokenAddress
  let actualCollateral ← SafeMath.div (SafeMath.mul storedCollateral currentIndex) userIndex
  requireB (decide (amount ≤ actualCollateral)) "Insufficient collateral"
  let s ← accrueInterest env s caller tokenAddress
  let newCollateral ← SafeMath.sub actualCollateral amount
  let s := { s with userCollateral := upd2 s.userCollateral caller tokenAddress newCollateral }
  pure { s with userSupplyIndex := upd2 s.userSupplyIndex caller tokenAddress currentIndex }

/-- The health gate of `withdrawCollateral` (lines 620-631): when the account
still has debt after the withdrawal, it must be healthy and clear the
additional 1.1 health-factor buffer. -/
def withdrawHealthGate (health : AccountHealth) : Except String Unit :=
  if 0 < health.totalBorrowValue then do
    requireB health.isHealthy "Withdrawal would make account unhealthy"
    let minHealthFactor := SafeMath.mul PRICE_PRECISION 11
    let minHealthFactorScaled ← SafeMath.div minHealthFactor 10
    requireB (decide (minHealthFactorScaled ≤ health.healthFactor))
      "Health factor too low after withdrawal (need >1.1)"
  else pure ()

/-- `withdrawCollateral` (lines 577-661): the prefix above, the
health-factor gate (with the 1.1 buffer) when the account still has debt,
then the totals/timestamp/membership updates. -/
def withdrawCollateral (env : Env) (s : State) (tokenAddress : String) (amount : Nat) :
    Except String State := do
  let s2 ← withdrawPre env s tokenAddress amount
  let caller := env.caller
  let health ← calcAccountHealth env s2 caller
  withdrawHealthGate health
  let tc ← SafeMath.sub (s2.totalCollateral tokenAddress) amount
  let s3 := { s2 with totalCollateral := upd1 s2.totalCollateral tokenAddress tc }
  -- token.transfer(caller, amount): external call
  let s4 := { s3 with userLastUpdate := upd2 s3.userLastUpdate caller tokenAddress env.timestamp }
  let s5 :=
    if s4.userCollateral caller tokenAddress = 0 ∧ s4.userDebt caller tokenAddress = 0 then
      removeAsset s4 caller tokenAddress
    else s4
  pure { s5 with reentrancy := false }

/-- The account health exactly as `withdrawCollateral` computes it at its
health-check point. -/
def withdrawHealthAtCheck (env : Env) (s : State) (tokenAddress : String) (amount : Nat) :
    Except String AccountHealth := do
  let s2 ← withdrawPre env s tokenAddress amount
  calcAccountHealth env s2 env.caller

/-- `_userHasAnyDebt`. -/
def userHasAnyDebt (s : State) (user : String) : Bool :=
  (s.userAssets user).any (fun t => 0 < s.userDebt user t)

/-- `emergencyWithdraw` (lines 685-749): works while paused, but only for a
caller with no debt in any asset. -/
def emergencyWithdraw (env : Env) (s : State) (tokenAddress : String) (amount : Nat) :
    Except String State := do
  requireB (!s.reentrancy) "Reentrant call"
  let s := { s with reentrancy := true }
  let caller := env.caller
  requireB (!userHasAnyDebt s caller) "Emergency withdrawal not allowed: user has outstanding debt"
  let s ← updateSupplyIndex env s tokenAddress
  let currentIndex := s.supplyIndex tokenAddress
  let storedCollateral := s.userCollateral caller tokenAddress
  let userIndex := s.userSupplyIndex caller tokenAddress
  let actualCollateral ← SafeMath.div (SafeMath.mul storedCollateral currentIndex) userIndex
  requireB (decide (amount ≤ actualCollateral)) "Insufficient collateral"
  let newCollateral ← SafeMath.sub actualCollateral amount
  let s := { s with userCollateral := upd2 s.userCollateral caller tokenAddress newCollateral }
  let s := { s with userSupplyIndex := upd2 s.userSupplyIndex caller tokenAddress currentIndex }
  let tc ← SafeMath.sub (s.totalCollateral tokenAddress) amount
  let s := { s with totalCollateral := upd1 s.totalCollateral tokenAddress tc }
  -- token.transfer(caller, amount): external call
  let s := { s with userLastUpdate := upd2 s.userLastUpdate caller tokenAddress env.timestamp }
  let s := if newCollateral = 0 then removeAsset s caller tokenAddress else s
  pure { s with reentrancy := false }

/-- The prefix of `borrow` up to the point where the account-health check
runs (lines 755-789): validations, accruals, debt write, membership,
`totalBorrows` update. -/
def borrowPre (env : Env) (s : State) (tokenAddress : String) (amount : Nat) :
    Except String State := do
  requireB (!s.paused) "Contract is paused"
  requireB (!s.reentrancy) "Reentrant call"
  let s := { s with reentrancy := true }
  requireB (s.supportedAssets tokenAddress) "Asset not supported"
  requireB (decide (0 < amount)) "Amount must be greater than zero"
  let caller := env.caller
  let s ← updateSupplyIndex env s tokenAddress
  let s ← accrueInterest env s caller tokenAddress
  let currentDebt := s.userDebt caller tokenAddress
  let newDebt ← SafeMath.add currentDebt amount
  let s := { s with userDebt := upd2 s.userDebt caller tokenAddress newDebt }
  assetLimitCheck s caller tokenAddress
  let s := addAsset s caller tokenAddress
  let tb ← SafeMath.add (s.totalBorrows tokenAddress) amount
  pure { s with totalBorrows := upd1 s.totalBorrows tokenAddress tb }

/-- `borrow` (lines 755-820): the prefix above, the `isHealthy` gate, the
collateral-factor LTV gate, then the timestamp update. -/
def borrow (env : Env) (s : State) (tokenAddress : String) (amount : Nat) :
    Except String State := do
  let s2 ← borrowPre env s tokenAddress amount
  let caller := env.caller
  let health ← calcAccountHealth env s2 caller
  requireB health.isHealthy "Borrow would make account unhealthy"
  let maxBorrowValue ← SafeMath.mulBP health.totalCollateralValue s2.collateralFactor
  requireB (decide (health.totalBorrowValue ≤ maxBorrowValue))
    "Borrow exceeds maximum allowed (75% LTV)"
  -- token.transfer(caller, amount): external call
  let s3 := { s2 with userLastUpdate := upd2 s2.userLastUpdate caller tokenAddress env.timestamp }
  pure { s3 with reentrancy := false }

/-- The account health exactly as `borrow` computes it at its health-check
point. -/
def borrowHealthAtCheck (env : Env) (s : State) (tokenAddress : String) (amount : Nat) :
    Except String AccountHealth := do
  let s2 ← borrowPre env s tokenAddress amount
  calcAccountHealth env s2 env.caller

/-- `repay` (lines 826-883). -/
def repay (env : Env) (s : State) (tokenAddress : String) (amount : Nat) :
    Except String State := do
  requireB (!s.paused) "Contract is paused"
  requireB (!s.reentrancy) "Reentrant call"
  let s := { s with reentrancy := true }
  let caller := env.caller
  let s ← updateSupplyIndex env s tokenAddress
  let s ← accrueInterest env s caller tokenAddress
  let currentDebt := s.userDebt caller tokenAddress
  requireB (decide (0 < currentDebt)) "No debt to repay"
  let actualAmount := SafeMath.minN amount currentDebt
  -- token.transferFrom(caller, callee, actualAmount): external call
  let newDebt ← SafeMath.sub currentDebt actualAmount
  let s := { s with userDebt := upd2 s.userDebt caller tokenAddress newDebt }
  let tb ← SafeMath.sub (s.totalBorrows tokenAddress) actualAmount
  let s := { s with totalBorrows := upd1 s.totalBorrows tokenAddress tb }
  let s := { s with userLastUpdate := upd2 s.userLastUpdate caller tokenAddress env.timestamp }
  let s :=
    if newDebt = 0 ∧ s.userCollateral caller tokenAddress = 0 then removeAsset s caller tokenAddress
    else s
  pure { s with reentrancy := false }

/-- The accrual prefix of `liquidate` (lines 944-949): supply-index updates
for both tokens, then debt-interest accrual for the borrower. -/
def liquidateAccrue (env : Env) (s : State) (collateralToken debtToken borrower : String) :
    Except String State := do
  let s ← updateSupplyIndex env s collateralToken
  let s ← updateSupplyIndex env s debtToken
  accrueInterest env s borrower debtToken

/-- The computation half of `liquidate` (lines 944-979): accrual, health
gate, close-factor cap, prices, base seize amount and dynamic bonus.
Returns the accrued state, the health snapshot, the actual repay amount and
the collateral to seize including the bonus. -/
def liquidatePlan (env : Env) (s : State) (borrower collateralToken debtToken : String)
    (debtAmount : Nat) : Except String (State × AccountHealth × Nat × Nat) := do
  let s1 ← liquidateAccrue env s collateralToken debtToken borrower
  let health ← calcAccountHealth env s1 borrower
  requireB (!health.isHealthy) "Position is healthy, cannot liquidate"
  let borrowerDebt := s1.userDebt borrower debtToken
  requireB (decide (0 < borrowerDebt)) "No debt to liquidate"
  let maxLiquidation ← SafeMath.mulBP borrowerDebt s1.closeFactor
  let actualLiquidationAmount := SafeMath.minN debtAmount maxLiquidation
  let collateralPrice ← getAssetPrice env s1 collateralToken
  let debtPrice ← getAssetPrice env s1 debtToken
  requireB (decide (0 < collateralPrice)) "Collateral price not available"
  requireB (decide (0 < debtPrice)) "Debt price not available"
  let debtValue := SafeMath.mul actualLiquidationAmount debtPrice
  let collateralToSeize ← SafeMath.div debtValue collateralPrice
  let liquidationBonus ← calcLiquidationBonus s1 health.healthFactor
  let bonusPart ← SafeMath.mulBP collateralToSeize liquidationBonus
  let collateralWithBonus ← SafeMath.add collateralToSeize bonusPart
  pure (s1, health, actualLiquidationAmount, collateralWithBonus)

/-- `liquidate` (lines 932-1022): plan, collateral-sufficiency check against
the borrower's raw stored collateral, then the balance/totals updates. -/
def liquidate (env : Env) (s : State) (borrower collateralToken debtToken : String)
    (debtAmount : Nat) : Except String State := do
  requireB (!s.paused) "Contract is paused"
  requireB (!s.reentrancy) "Reentrant call"
  let s0 := { s with reentrancy := true }
  let plan ← liquidatePlan env s0 borrower collateralToken debtToken debtAmount
  let (s1, _, actualLiquidationAmount, collateralWithBonus) := plan
  let borrowerCollateral := s1.userCollateral borrower collateralToken
  requireB (decide (collateralWithBonus ≤ borrowerCollateral)) "Insufficient collateral to seize"
  -- debtToken.transferFrom(liquidator, callee, actualLiquidationAmount): external call
  let borrowerDebt := s1.userDebt borrower debtToken
  let newDebt ← SafeMath.sub borrowerDebt actualLiquidationAmount
  let s2 := { s1 with userDebt := upd2 s1.userDebt borrower debtToken newDebt }
  let newCollateral ← SafeMath.sub borrowerCollateral collateralWithBonus
  let s3 := { s2 with userCollateral := upd2 s2.userCollateral borrower collateralToken newCollateral }
  -- collateralToken.transfer(liquidator, collateralWithBonus): external call
  let tb ← SafeMath.sub (s3.totalBorrows debtToken) actualLiquidationAmount
  let s4 := { s3 with totalBorrows := upd1 s3.totalBorrows debtToken tb }
  let tc ← SafeMath.sub (s4.totalCollateral collateralToken) collateralWithBonus
  let s5 := { s4 with totalCollateral := upd1 s4.totalCollateral collateralToken tc }
  pure { s5 with reentrancy := false }

/-- `flashLoan` (lines 1886-1956). The receiver's behaviour enters through
two inputs: `callbackSuccess` (the callback's reported boolean) and
`balanceAfter` (the contract's token balance after the callback). -/
def flashLoan (env : Env) (s : State) (_receiverAddress tokenAddress : String) (amount : Nat)
    (callbackSuccess : Bool) (balanceAfter : Nat) : Except String State := do
  requireB (!s.paused) "Contract is paused"
  requireB (!s.reentrancy) "Reentrant call"
  let s := { s with reentrancy := true }
  requireB s.flashLoanEnabled "Flash loans are disabled"
  requireB (s.supportedAssets tokenAddress) "Asset not supported"
  requireB (decide (0 < amount)) "Amount must be greater than zero"
  let totalCollateral := s.totalCollateral tokenAddress
  let totalBorrows := s.totalBorrows tokenAddress
  let availableLiquidity ← SafeMath.sub totalCollateral totalBorrows
  requireB (decide (amount ≤ availableLiquidity)) "Insufficient liquidity for flash loan"
  let feeAmount ← SafeMath.mulBP amount s.flashLoanFee
  let balanceBefore := env.balanceOf tokenAddress
  -- token.transfer(receiver, amount), receiver.flashLoanCallback(sender, token, amount, fee)
  requireB callbackSuccess "Flash loan callback failed"
  let expectedBalance ← SafeMath.add balanceBefore feeAmount
  requireB (decide (expectedBalance ≤ balanceAfter)) "Flash loan not repaid: insufficient balance"
  let s ← treasuryAdd s tokenAddress feeAmount
  pure { s with reentrancy := false }

/-- `addSupportedAsset` (lines 1629-1640). -/
def addSupportedAsset (env : Env) (s : State) (tokenAddress : String) : Except String State := do
  onlyOwnerCheck env s
  pure { s with supportedAssets := upd1 s.supportedAssets tokenAddress true }

/-- `setAssetPrice` (lines 1646-1660). -/
def setAssetPrice (env : Env) (s : State) (tokenAddress : String) (price : Nat) :
    Except String State := do
  onlyOwnerCheck env s
  requireB (decide (0 < price)) "Price must be greater than zero"
  pure { s with assetPrice := upd1 s.assetPrice tokenAddress price }

/-- `setInterestRateParams` (lines 1666-1693). -/
def setInterestRateParams (env : Env) (s : State) (baseRate optimalUtil slope1 slope2 : Nat) :
    Except String State := do
  onlyOwnerCheck env s
  requireB (InterestRateModel.validateParameters baseRate optimalUtil slope1 slope2)
    "Invalid interest rate parameters"
  pure { s with baseRate := baseRate, optimalUtil := optimalUtil,
                slope1 := slope1, slope2 := slope2 }

/-- `pause` (lines 1698-1707). -/
def pause (env : Env) (s : State) : Except String State := do
  onlyOwnerCheck env s
  requireB (!s.paused) "Contract is paused"
  pure { s with paused := true }

/-- `unpause` (lines 1712-1721). -/
def unpause (env : Env) (s : State) : Except String State := do
  onlyOwnerCheck env s
  requireB s.paused "Contract is not paused"
  pure { s with paused := false }

/-- `transferOwnership` (lines 1735-1749). -/
def transferOwnership (env : Env) (s : State) (newOwner : String) : Except String State := do
  onlyOwnerCheck env s
  requireB (newOwner != "") "New owner cannot be empty"
  pure { s with owner := newOwner }

/-- `setPriceMaxAge` (lines 1791-1802). -/
def setPriceMaxAge (env : Env) (s : State) (maxAge : Nat) : Except String State := do
  onlyOwnerCheck env s
  pure { s with priceMaxAge := maxAge }

/-- `setTWAPPeriod` (lines 1808-1821). -/
def setTWAPPeriod (env : Env) (s : State) (period : Nat) : Except String State := do
  onlyOwnerCheck env s
  requireB (decide (0 < period ∧ period ≤ 3600000)) "Period must be between 0 and 1 hour"
  pure { s with twapPeriod := period }

/-- `setAssetPair` (lines 1827-1842). -/
def setAssetPair (env : Env) (s : State) (tokenAddress pairAddress : String) :
    Except String State := do
  onlyOwnerCheck env s
  requireB (s.supportedAssets tokenAddress) "Asset not supported"
  pure { s with pairAddress := upd1 s.pairAddress tokenAddress pairAddress }

/-- `setReserveFactor` (lines 1966-1979). -/
def setReserveFactor (env : Env) (s : State) (reserveFactor : Nat) : Except String State := do
  onlyOwnerCheck env s
  requireB (decide (reserveFactor ≤ 5000)) "Reserve factor cannot exceed 50%"
  pure { s with reserveFactor := reserveFactor }

/-- `setTreasuryAddress` (lines 1985-1996). -/
def setTreasuryAddress (env : Env) (s : State) (treasuryAddress : String) :
    Except String State := do
  onlyOwnerCheck env s
  pure { s with treasuryAddress := treasuryAddress }

/-- The available-liquidity computation of `withdrawTreasuryReserves`
(lines 2015-2019): `totalCollateral - totalBorrows`, floored at zero. -/
def treasuryAvailableLiquidity (totalCollateral totalBorrows : Nat) : Except String Nat :=
  if totalBorrows < totalCollateral then SafeMath.sub totalCollateral totalBorrows
  else pure 0

/-- `withdrawTreasuryReserves` (lines 2002-2041). -/
def withdrawTreasuryReserves (env : Env) (s : State) (tokenAddress : String) (amount : Nat) :
    Except String State := do
  onlyOwnerCheck env s
  requireB (!s.reentrancy) "Reentrant call"
  let s := { s with reentrancy := true }
  let currentReserves := s.treasuryReserves tokenAddress
  requireB (decide (amount ≤ currentReserves)) "Insufficient treasury reserves"
  let totalCollateral := s.totalCollateral tokenAddress
  let totalBorrows := s.totalBorrows tokenAddress
  let availableLiquidity ← treasuryAvailableLiquidity totalCollateral totalBorrows
  requireB (decide (amount ≤ availableLiquidity)) "Insufficient pool liquidity for treasury withdrawal"
  requireB (s.treasuryAddress != "") "Treasury address not set"
  let r ← SafeMath.sub currentReserves amount
  let s := { s with treasuryReserves := upd1 s.treasuryReserves tokenAddress r }
  -- token.transfer(treasuryAddress, amount): external call
  pure { s with reentrancy := false }

/-- `setCloseFactor` (lines 2072-2085). -/
def setCloseFactor (env : Env) (s : State) (closeFactor : Nat) : Except String State := do
  onlyOwnerCheck env s
  requireB (decide (1000 ≤ closeFactor ∧ closeFactor ≤ 10000))
    "Close factor must be between 10% and 100%"
  pure { s with closeFactor := closeFactor }

/-- `setLiquidationBonusRange` (lines 2091-2107). -/
def setLiquidationBonusRange (env : Env) (s : State) (minBonus maxBonus : Nat) :
    Except String State := do
  onlyOwnerCheck env s
  requireB (decide (minBonus ≤ maxBonus)) "Min bonus must be <= max bonus"
  requireB (decide (maxBonus ≤ 5000)) "Max bonus cannot exceed 50%"
  pure { s with liquidationBonusMin := minBonus, liquidationBonusMax := maxBonus }

/-- `setFlashLoanFee` (lines 2134-2147). -/
def setFlashLoanFee (env : Env) (s : State) (fee : Nat) : Except String State := do
  onlyOwnerCheck env s
  requireB (decide (fee ≤ 100)) "Flash loan fee cannot exceed 1%"
  pure { s with flashLoanFee := fee }

/-- `setFlashLoanEnabled` (lines 2153-2164). -/
def setFlashLoanEnabled (env : Env) (s : State) (enabled : Bool) : Except String State := do
  onlyOwnerCheck env s
  pure { s with flashLoanEnabled := enabled }

/-- One invocation of any state-mutating entry point of the pool. -/
inductive Op where
  | opDeposit (token : String) (amount : Nat)
  | opWithdraw (token : String) (amount : Nat)
  | opEmergencyWithdraw (token : String) (amount : Nat)
  | opBorrow (token : String) (amount : Nat)
  | opRepay (token : String) (amount : Nat)
  | opLiquidate (borrower collateralToken debtToken : String) (debtAmount : Nat)
  | opFlashLoan (receiver token : String) (amount : Nat) (cbOk : Bool) (balAfter : Nat)
  | opAddSupportedAsset (token : String)
  | opSetAssetPrice (token : String) (price : Nat)
  | opSetInterestRateParams (baseRate optimalUtil slope1 slope2 : Nat)
  | opPause
  | opUnpause
  | opTransferOwnership (newOwner : String)
  | opSetPriceMaxAge (v : Nat)
  | opSetTWAPPeriod (v : Nat)
  | opSetAssetPair (token pair : String)
  | opSetReserveFactor (v : Nat)
  | opSetTreasuryAddress (a : String)
  | opWithdrawTreasuryReserves (token : String) (amount : Nat)
  | opSetCloseFactor (v : Nat)
  | opSetLiquidationBonusRange (mn mx : Nat)
  | opSetFlashLoanFee (v : Nat)
  | opSetFlashLoanEnabled (b : Bool)

/-- Dispatch one operation against the ledger. -/
def applyOp (env : Env) (s : State) : Op → Except String State
  | .opDeposit t a => depositCollateral env s t a
  | .opWithdraw t a => withdrawCollateral env s t a
  | .opEmergencyWithdraw t a => emergencyWithdraw env s t a
  | .opBorrow t a => borrow env s t a
  | .opRepay t a => repay env s t a
  | .opLiquidate b ct dt a => liquidate env s b ct dt a
  | .opFlashLoan r t a cb bal => flashLoan env s r t a cb bal
  | .opAddSupportedAsset t => addSupportedAsset env s t
  | .opSetAssetPrice t p => setAssetPrice env s t p
  | .opSetInterestRateParams b o s1 s2 => setInterestRateParams env s b o s1 s2
  | .opPause => pause env s
  | .opUnpause => unpause env s
  | .opTransferOwnership o => transferOwnership env s o
  | .opSetPriceMaxAge v => setPriceMaxAge env s v
  | .opSetTWAPPeriod v => setTWAPPeriod env s v
  | .opSetAssetPair t p => setAssetPair env s t p
  | .opSetReserveFactor v => setReserveFactor env s v
  | .opSetTreasuryAddress a => setTreasuryAddress env s a
  | .opWithdrawTreasuryReserves t a => withdrawTreasuryReserves env s t a
  | .opSetCloseFactor v => setCloseFactor env s v
  | .opSetLiquidationBonusRange mn mx => setLiquidationBonusRange env s mn mx
  | .opSetFlashLoanFee v => setFlashLoanFee env s v
  | .opSetFlashLoanEnabled b => setFlashLoanEnabled env s b

/-- Run a sequence of operations, each under its own host context (callers
and timestamps vary across transactions); the sequence aborts at the first
failing operation. -/
def runOps : List (Env × Op) → State → Except String State
  | [], s => .ok s
  | (env, op) :: rest, s => do
    let s1 ← applyOp env s op
    runOps rest s1

/-! ## Proof toolkit -/

theorem exceptBindOk {α β : Type} {x : Except String α} {f : α → Except String β} {b : β} :
    (x >>= f = .ok b) ↔ ∃ a, x = .ok a ∧ f a = .ok b := by
  cases x <;> simp [Bind.bind, Except.bind]

theorem purePropOk {α : Type} {a b : α} : (pure a : Except String α) = .ok b ↔ a = b := by
  simp [pure, Except.pure]

theorem requireB_ok {c : Bool} {m : String} {u : Unit} (h : requireB c m = .ok u) : c = true := by
  cases c with
  | true => rfl
  | false => simp [requireB] at h

theorem treasuryAdd_supplyIndex {s : State} {t : String} {a : Nat} {s' : State}
    (h : treasuryAdd s t a = .ok s') : s'.supplyIndex = s.supplyIndex := by
  unfold treasuryAdd at h
  simp only [exceptBindOk] at h
  obtain ⟨r, _, h2⟩ := h
  rw [purePropOk] at h2
  rw [← h2]

/-! ## Specification-side definitions and concrete scenario states -/

def baseState : State :=
  { userCollateral := fun _ _ => 0, userDebt := fun _ _ => 0, userLastUpdate := fun _ _ => 0,
    userSupplyIndex := fun _ _ => 0, userAssets := fun _ => [],
    supportedAssets := fun _ => false, assetPrice := fun _ => 0,
    totalCollateral := fun _ => 0, totalBorrows := fun _ => 0,
    supplyIndex := fun _ => 1000000000000000000, supplyIndexLastUpdate := fun _ => 1000,
    treasuryReserves := fun _ => 0, pairAddress := fun _ => "", owner := "o",
    treasuryAddress := "T", paused := false, reentrancy := false, flashLoanEnabled := true,
    baseRate := 200, optimalUtil := 8000, slope1 := 400, slope2 := 6000,
    collateralFactor := 7500, liquidationThreshold := 8000, closeFactor := 5000,
    liquidationBonusMin := 500, liquidationBonusMax := 1500, reserveFactor := 1000,
    flashLoanFee := 9, twapPeriod := 300, priceMaxAge := 600000 }

def env0 : Env :=
  { caller := "u", timestamp := 1000, decimals := fun _ => 0,
    balanceOf := fun _ => 20000, oracleCumulativeId := fun _ _ => 0, binStep := fun _ => 0 }

def stC1 : State :=
  { baseState with
    userCollateral := fun u t => if u = "u" ∧ t = "A" then 10000 else 0,
    userSupplyIndex := fun u t => if u = "u" ∧ t = "A" then 1000000000000000000 else 0,
    userLastUpdate := fun u t => if u = "u" ∧ t = "A" then 1000 else 0,
    userAssets := fun u => if u = "u" then ["A"] else [],
    supportedAssets := fun t => t == "A",
    assetPrice := fun t => if t = "A" then 1000000000000000000 else 0,
    totalCollateral := fun t => if t = "A" then 10000 else 0 }

example : ((borrow env0 stC1 "A" 7500).bind (fun s1 => calcAccountHealth env0 s1 "u"))
    = .ok ⟨10000000000000000000000, 7500000000000000000000, 1066666666666666666, true⟩ := by
  rfl

/-- The liquidation-bonus formula exactly as the spec states it (a
specification-side definition, to be compared with the source-derived
`calcLiquidationBonus`): `bonusMin` at or above health factor 1e18,
`bonusMax` at or below 0.5e18, and in between
`bonusMax - (healthFactor - 0.5e18) * (bonusMax - bonusMin) / 0.5e18`. -/
def bonusSpec (minBonus maxBonus hf : Nat) : Nat :=
  if PRICE_PRECISION ≤ hf then minBonus
  else if hf ≤ 500000000000000000 then maxBonus
  else maxBonus - (hf - 500000000000000000) * (maxBonus - minBonus) / 500000000000000000

def stW : State :=
  { stC1 with
    userDebt := fun u t => if u = "u" ∧ t = "A" then 100 else 0,
    totalBorrows := fun t => if t = "A" then 100 else 0 }

def stC2 : State :=
  { stC1 with
    userCollateral := fun u t => if u = "u" ∧ t = "A" then 100 else 0,
    totalCollateral := fun t => if t = "A" then 100 else 0,
    totalBorrows := fun t => if t = "A" then 60 else 0 }

def stC7 : State :=
  { stC1 with
    assetPrice := fun _ => 0,
    userDebt := fun u t => if u = "u" ∧ t = "A" then 50 else 0 }

def stC7b : State :=
  { stC1 with assetPrice := fun _ => 0 }

def stC10 : State :=
  { baseState with
    userCollateral := fun u t => if u = "b" ∧ t = "C" then 1000 else 0,
    userDebt := fun u t => if u = "b" ∧ t = "D" then 900 else 0,
    userSupplyIndex := fun u t => if u = "b" ∧ t = "C" then 1000000000000000000 else 0,
    userLastUpdate := fun u _t => if u = "b" then 1000 else 0,
    userAssets := fun u => if u = "b" then ["C", "D"] else [],
    supportedAssets := fun t => t == "C" || t == "D",
    assetPrice := fun t => if t = "C" ∨ t = "D" then 1000000000000000000 else 0,
    totalCollateral := fun t => if t = "C" then 1000 else 0,
    totalBorrows := fun t => if t = "D" then 900 else 0 }

def c1wOut : State :=
  match withdrawCollateral env0 stW "A" 100 with
  | .ok s => s
  | .error _ => stW

def c1bOut : State :=
  match borrow env0 stC1 "A" 7500 with
  | .ok s => s
  | .error _ => stC1

def c2wOut : State :=
  match withdrawCollateral env0 stC2 "A" 80 with
  | .ok s => s
  | .error _ => stC2

def c3Out : State :=
  match flashLoan env0 stC1 "R" "A" 10000 true 20009 with
  | .ok s => s
  | .error _ => stC1

def c5acc : State :=
  match liquidateAccrue env0 { stC1 with reentrancy := true } "A" "A" "u" with
  | .ok s => s
  | .error _ => stC1

def c9ops : List (Env × Op) := [(env0, Op.opDeposit "A" 500), (env0, Op.opBorrow "A" 300)]

def c9out : State :=
  match runOps c9ops stC1 with
  | .ok s => s
  | .error _ => stC1

def c10s1 : State :=
  match liquidateAccrue env0 { stC10 with reentrancy := true } "C" "D" "b" with
  | .ok s => s
  | .error _ => stC10

def c10out : State :=
  match liquidate env0 stC10 "b" "C" "D" 450 with
  | .ok s => s
  | .error _ => stC10

/-! ## Lemmas and claim theorems -/

/-! Basic lemmas about the first SafeMath variant, used throughout. -/

theorem SafeMath.divLoop_snd (b : Nat) (hb : 0 < b) :
    ∀ remainder result, (SafeMath.divLoop b remainder result).2 = result + remainder / b := by
  intro remainder
  induction remainder using Nat.strong_induction_on with
  | _ remainder ih =>
    intro result
    unfold SafeMath.divLoop
    by_cases h : b ≤ remainder ∧ 0 < b
    · rw [dif_pos h]
      rw [ih (remainder - b) (Nat.sub_lt (Nat.lt_of_lt_of_le hb h.1) hb) (result + 1)]
      have hdiv : remainder / b = (remainder - b) / b + 1 := by
        rw [Nat.div_eq remainder b, if_pos ⟨hb, h.1⟩]
      omega
    · rw [dif_neg h]
      have hlt : remainder < b := by
        rcases Nat.lt_or_ge remainder b with hc | hc
        · exact hc
        · exact absurd ⟨hc, hb⟩ h
      simp [Nat.div_eq_of_lt hlt]

theorem SafeMath.div_ok (a b : Nat) (hb : 0 < b) : SafeMath.div a b = .ok (a / b) := by
  unfold SafeMath.div
  rw [if_neg (not_not_intro hb)]

/-- The source-literal first-variant division agrees with checked floor
division on every input. -/
theorem SafeMath.divSrc_eq_div (a b : Nat) : SafeMath.divSrc a b = SafeMath.div a b := by
  unfold SafeMath.divSrc SafeMath.div
  by_cases hb : 0 < b
  · have hnb : ¬¬ 0 < b := not_not_intro hb
    rw [if_neg hnb, if_neg hnb]
    by_cases h1 : a < b
    · rw [if_pos h1, Nat.div_eq_of_lt h1]
    · rw [if_neg h1]
      by_cases h2 : a = b
      · rw [if_pos h2, h2, Nat.div_self hb]
      · rw [if_neg h2]
        by_cases h3 : a ≤ U64MAX ∧ b ≤ U64MAX
        · rw [if_pos h3]
        · rw [if_neg h3, SafeMath.divLoop_snd b hb a 0, Nat.zero_add]
  · rw [if_pos hb, if_pos hb]

theorem SafeMath.mulBP_ok (value bp : Nat) :
    SafeMath.mulBP value bp = .ok (SafeMath.mul value bp / 10000) := by
  unfold SafeMath.mulBP
  by_cases h : value = 0 ∨ bp = 0
  · rw [if_pos h]
    rcases h with h | h <;> simp [SafeMath.mul, h]
  · rw [if_neg h, SafeMath.div_ok _ _ (by omega)]

theorem SafeMath.add_ok_ge {a b c : Nat} (h : SafeMath.add a b = .ok c) : a ≤ c := by
  unfold SafeMath.add at h
  by_cases hc : a ≤ (a + b) % U256MOD
  · rw [if_pos hc] at h
    cases h
    exact hc
  · rw [if_neg hc] at h
    cases h

theorem SafeMath.add_ok_of_lt {a b : Nat} (hs : a + b < U256MOD) :
    SafeMath.add a b = .ok (a + b) := by
  unfold SafeMath.add
  rw [Nat.mod_eq_of_lt hs, if_pos (Nat.le_add_right a b)]

theorem SafeMath.add_ok_sum {a b c : Nat} (ha : a < U256MOD) (hb : b < U256MOD)
    (h : SafeMath.add a b = .ok c) : c = a + b := by
  unfold SafeMath.add at h
  by_cases hs : a + b < U256MOD
  · rw [Nat.mod_eq_of_lt hs, if_pos (Nat.le_add_right a b)] at h
    cases h
    rfl
  · have h2 : a + b - U256MOD < U256MOD := by omega
    rw [Nat.mod_eq_sub_mod (Nat.le_of_not_lt hs), Nat.mod_eq_of_lt h2,
      if_neg (by omega)] at h
    cases h

theorem updateSupplyIndex_mono {env : Env} {s : State} {t : String} {s' : State}
    (h : updateSupplyIndex env s t = .ok s') :
    ∀ a, s.supplyIndex a ≤ s'.supplyIndex a := by
  rw [updateSupplyIndex] at h
  dsimp only at h
  split at h
  case isTrue =>
    cases h
    intro a
    exact Nat.le_refl _
  case isFalse =>
    split at h
    case isTrue =>
      cases h
      intro a
      exact Nat.le_refl _
    case isFalse =>
      simp only [exceptBindOk] at h
      obtain ⟨util, _, rate, _, h⟩ := h
      split at h
      case isTrue =>
        cases h
        intro a
        exact Nat.le_refl _
      case isFalse =>
        split at h
        case isTrue =>
          cases h
          intro a
          exact Nat.le_refl _
        case isFalse =>
          simp only [exceptBindOk] at h
          obtain ⟨inc, hinc, newIndex, hadd, h⟩ := h
          cases h
          intro a
          by_cases ha : a = t
          · subst ha
            simp only [upd1, if_pos]
            exact SafeMath.add_ok_ge hadd
          · simp only [upd1, if_neg ha]
            exact Nat.le_refl _

theorem accrueInterestFee_supplyIndex {s : State} {t : String} {i : Nat} {s' : State}
    (h : accrueInterestFee s t i = .ok s') : s'.supplyIndex = s.supplyIndex := by
  rw [accrueInterestFee] at h
  split at h
  case isTrue =>
    simp only [exceptBindOk] at h
    obtain ⟨fee, _, h⟩ := h
    exact treasuryAdd_supplyIndex h
  case isFalse =>
    rw [purePropOk] at h
    rw [← h]

theorem accrueInterestApply_supplyIndex {s : State} {t : String} {tb i : Nat} {s' : State}
    (h : accrueInterestApply s t tb i = .ok s') : s'.supplyIndex = s.supplyIndex := by
  rw [accrueInterestApply] at h
  split at h
  case isTrue =>
    simp only [exceptBindOk] at h
    obtain ⟨s2, hs2, utb, _, h⟩ := h
    rw [purePropOk] at h
    rw [← h]
    show s2.supplyIndex = s.supplyIndex
    exact accrueInterestFee_supplyIndex hs2
  case isFalse =>
    rw [purePropOk] at h
    rw [← h]

theorem accrueInterest_supplyIndex {env : Env} {s : State} {u t : String} {s' : State}
    (h : accrueInterest env s u t = .ok s') : s'.supplyIndex = s.supplyIndex := by
  rw [accrueInterest] at h
  dsimp only at h
  split at h
  case isTrue =>
    cases h
    rfl
  case isFalse =>
    split at h
    case isTrue =>
      cases h
      rfl
    case isFalse =>
      simp only [exceptBindOk] at h
      obtain ⟨util, _, rate, _, newDebt, _, interest, _, s1, hs1, h⟩ := h
      rw [purePropOk] at h
      rw [← h]
      show s1.supplyIndex = s.supplyIndex
      exact accrueInterestApply_supplyIndex hs1

theorem addAsset_supplyIndex (s : State) (u t : String) :
    (addAsset s u t).supplyIndex = s.supplyIndex := by
  rw [addAsset]
  split <;> rfl

theorem removeAsset_supplyIndex (s : State) (u t : String) :
    (removeAsset s u t).supplyIndex = s.supplyIndex := rfl

theorem treasuryAdd_core {s : State} {t : String} {a : Nat} {s' : State}
    (h : treasuryAdd s t a = .ok s') :
    s'.userCollateral = s.userCollateral ∧ s'.userSupplyIndex = s.userSupplyIndex ∧
      s'.totalCollateral = s.totalCollateral ∧ s'.collateralFactor = s.collateralFactor := by
  rw [treasuryAdd] at h
  simp only [exceptBindOk] at h
  obtain ⟨r, _, h⟩ := h
  rw [purePropOk] at h
  rw [← h]
  exact ⟨rfl, rfl, rfl, rfl⟩

theorem updateSupplyIndex_core {env : Env} {s : State} {t : String} {s' : State}
    (h : updateSupplyIndex env s t = .ok s') :
    s'.userCollateral = s.userCollateral ∧ s'.userSupplyIndex = s.userSupplyIndex ∧
      s'.totalCollateral = s.totalCollateral ∧ s'.collateralFactor = s.collateralFactor := by
  rw [updateSupplyIndex] at h
  dsimp only at h
  split at h
  case isTrue =>
    cases h
    exact ⟨rfl, rfl, rfl, rfl⟩
  case isFalse =>
    split at h
    case isTrue =>
      cases h
      exact ⟨rfl, rfl, rfl, rfl⟩
    case isFalse =>
      simp only [exceptBindOk] at h
      obtain ⟨util, _, rate, _, h⟩ := h
      split at h
      case isTrue =>
        cases h
        exact ⟨rfl, rfl, rfl, rfl⟩
      case isFalse =>
        split at h
        case isTrue =>
          cases h
          exact ⟨rfl, rfl, rfl, rfl⟩
        case isFalse =>
          simp only [exceptBindOk] at h
          obtain ⟨inc, _, newIndex, _, h⟩ := h
          cases h
          exact ⟨rfl, rfl, rfl, rfl⟩

theorem accrueInterestFee_core {s : State} {t : String} {i : Nat} {s' : State}
    (h : accrueInterestFee s t i = .ok s') :
    s'.userCollateral = s.userCollateral ∧ s'.userSupplyIndex = s.userSupplyIndex ∧
      s'.totalCollateral = s.totalCollateral ∧ s'.collateralFactor = s.collateralFactor := by
  rw [accrueInterestFee] at h
  split at h
  case isTrue =>
    simp only [exceptBindOk] at h
    obtain ⟨fee, _, h⟩ := h
    exact treasuryAdd_core h
  case isFalse =>
    rw [purePropOk] at h
    rw [← h]
    exact ⟨rfl, rfl, rfl, rfl⟩

theorem accrueInterestApply_core {s : State} {t : String} {tb i : Nat} {s' : State}
    (h : accrueInterestApply s t tb i = .ok s') :
    s'.userCollateral = s.userCollateral ∧ s'.userSupplyIndex = s.userSupplyIndex ∧
      s'.totalCollateral = s.totalCollateral ∧ s'.collateralFactor = s.collateralFactor := by
  rw [accrueInterestApply] at h
  split at h
  case isTrue =>
    simp only [exceptBindOk] at h
    obtain ⟨s2, hs2, utb, _, h⟩ := h
    rw [purePropOk] at h
    rw [← h]
    obtain ⟨a1, a2, a3, a4⟩ := accrueInterestFee_core hs2
    exact ⟨a1, a2, a3, a4⟩
  case isFalse =>
    rw [purePropOk] at h
    rw [← h]
    exact ⟨rfl, rfl, rfl, rfl⟩

theorem accrueInterest_core {env : Env} {s : State} {u t : String} {s' : State}
    (h : accrueInterest env s u t = .ok s') :
    s'.userCollateral = s.userCollateral ∧ s'.userSupplyIndex = s.userSupplyIndex ∧
      s'.totalCollateral = s.totalCollateral ∧ s'.collateralFactor = s.collateralFactor := by
  rw [accrueInterest] at h
  dsimp only at h
  split at h
  case isTrue =>
    cases h
    exact ⟨rfl, rfl, rfl, rfl⟩
  case isFalse =>
    split at h
    case isTrue =>
      cases h
      exact ⟨rfl, rfl, rfl, rfl⟩
    case isFalse =>
      simp only [exceptBindOk] at h
      obtain ⟨util, _, rate, _, newDebt, _, interest, _, s1, hs1, h⟩ := h
      rw [purePropOk] at h
      rw [← h]
      obtain ⟨a1, a2, a3, a4⟩ := accrueInterestApply_core hs1
      exact ⟨a1, a2, a3, a4⟩

theorem depositCollateral_mono {env : Env} {s : State} {t : String} {amt : Nat} {s' : State}
    (h : depositCollateral env s t amt = .ok s') :
    ∀ a, s.supplyIndex a ≤ s'.supplyIndex a := by
  rw [depositCollateral] at h
  simp only [exceptBindOk] at h
  obtain ⟨_, _, _, _, _, _, _, _, s1, hs1, nc, _, _, _, tc, _, h⟩ := h
  rw [purePropOk] at h
  intro a
  have h1 := updateSupplyIndex_mono hs1 a
  rw [← h]
  dsimp only
  rw [addAsset_supplyIndex]
  exact h1

theorem ite_removeAsset_supplyIndex (c : Prop) [Decidable c] (x : State) (u t : String) :
    (if c then removeAsset x u t else x).supplyIndex = x.supplyIndex := by
  split <;> rfl

theorem withdrawPre_mono {env : Env} {s : State} {t : String} {amt : Nat} {s' : State}
    (h : withdrawPre env s t amt = .ok s') :
    ∀ a, s.supplyIndex a ≤ s'.supplyIndex a := by
  rw [withdrawPre] at h
  simp only [exceptBindOk] at h
  obtain ⟨_, _, _, _, s1, hs1, ac, _, _, _, s2, hs2, ncl, _, h⟩ := h
  rw [purePropOk] at h
  intro a
  have h1 := updateSupplyIndex_mono hs1 a
  have h2 := accrueInterest_supplyIndex hs2
  rw [← h]
  dsimp only
  show s.supplyIndex a ≤ s2.supplyIndex a
  rw [h2]
  exact h1

theorem withdrawPre_totalCollateral {env : Env} {s : State} {t : String} {amt : Nat} {s' : State}
    (h : withdrawPre env s t amt = .ok s') : s'.totalCollateral = s.totalCollateral := by
  rw [withdrawPre] at h
  simp only [exceptBindOk] at h
  obtain ⟨_, _, _, _, s1, hs1, ac, _, _, _, s2, hs2, ncl, _, h⟩ := h
  rw [purePropOk] at h
  rw [← h]
  show s2.totalCollateral = s.totalCollateral
  rw [(accrueInterest_core hs2).2.2.1, (updateSupplyIndex_core hs1).2.2.1]

theorem withdrawCollateral_mono {env : Env} {s : State} {t : String} {amt : Nat} {s' : State}
    (h : withdrawCollateral env s t amt = .ok s') :
    ∀ a, s.supplyIndex a ≤ s'.supplyIndex a := by
  rw [withdrawCollateral] at h
  simp only [exceptBindOk] at h
  obtain ⟨s2, hs2, health, _, _, _, tc, _, h⟩ := h
  rw [purePropOk] at h
  intro a
  have h1 := withdrawPre_mono hs2 a
  rw [← h]
  dsimp only
  rw [ite_removeAsset_supplyIndex]
  exact h1

theorem emergencyWithdraw_mono {env : Env} {s : State} {t : String} {amt : Nat} {s' : State}
    (h : emergencyWithdraw env s t amt = .ok s') :
    ∀ a, s.supplyIndex a ≤ s'.supplyIndex a := by
  rw [emergencyWithdraw] at h
  simp only [exceptBindOk] at h
  obtain ⟨_, _, _, _, s1, hs1, ac, _, _, _, ncl, _, tc, _, h⟩ := h
  rw [purePropOk] at h
  intro a
  have h1 := updateSupplyIndex_mono hs1 a
  rw [← h]
  dsimp only
  rw [ite_removeAsset_supplyIndex]
  exact h1

theorem borrowPre_mono {env : Env} {s : State} {t : String} {amt : Nat} {s' : State}
    (h : borrowPre env s t amt = .ok s') :
    ∀ a, s.supplyIndex a ≤ s'.supplyIndex a := by
  rw [borrowPre] at h
  simp only [exceptBindOk] at h
  obtain ⟨_, _, _, _, _, _, _, _, s1, hs1, s2, hs2, nd, _, _, _, tb, _, h⟩ := h
  rw [purePropOk] at h
  intro a
  have h1 := updateSupplyIndex_mono hs1 a
  have h2 := accrueInterest_supplyIndex hs2
  rw [← h]
  dsimp only
  rw [addAsset_supplyIndex]
  show s.supplyIndex a ≤ s2.supplyIndex a
  rw [h2]
  exact h1

theorem borrowPre_collateralFactor {env : Env} {s : State} {t : String} {amt : Nat} {s' : State}
    (h : borrowPre env s t amt = .ok s') : s'.collateralFactor = s.collateralFactor := by
  rw [borrowPre] at h
  simp only [exceptBindOk] at h
  obtain ⟨_, _, _, _, _, _, _, _, s1, hs1, s2, hs2, nd, _, _, _, tb, _, h⟩ := h
  rw [purePropOk] at h
  rw [← h]
  show (addAsset _ _ _).collateralFactor = s.collateralFactor
  rw [addAsset]
  split
  · show s2.collateralFactor = s.collateralFactor
    rw [(accrueInterest_core hs2).2.2.2, (updateSupplyIndex_core hs1).2.2.2]
  · show s2.collateralFactor = s.collateralFactor
    rw [(accrueInterest_core hs2).2.2.2, (updateSupplyIndex_core hs1).2.2.2]

theorem borrow_mono {env : Env} {s : State} {t : String} {amt : Nat} {s' : State}
    (h : borrow env s t amt = .ok s') :
    ∀ a, s.supplyIndex a ≤ s'.supplyIndex a := by
  rw [borrow] at h
  simp only [exceptBindOk] at h
  obtain ⟨s2, hs2, health, _, _, _, mbv, _, _, _, h⟩ := h
  rw [purePropOk] at h
  intro a
  have h1 := borrowPre_mono hs2 a
  rw [← h]
  exact h1

theorem repay_mono {env : Env} {s : State} {t : String} {amt : Nat} {s' : State}
    (h : repay env s t amt = .ok s') :
    ∀ a, s.supplyIndex a ≤ s'.supplyIndex a := by
  rw [repay] at h
  simp only [exceptBindOk] at h
  obtain ⟨_, _, _, _, s1, hs1, s2, hs2, _, _, nd, _, tb, _, h⟩ := h
  rw [purePropOk] at h
  intro a
  have h1 := updateSupplyIndex_mono hs1 a
  have h2 := accrueInterest_supplyIndex hs2
  rw [← h]
  dsimp only
  rw [ite_removeAsset_supplyIndex]
  show s.supplyIndex a ≤ s2.supplyIndex a
  rw [h2]
  exact h1

theorem liquidateAccrue_mono {env : Env} {s : State} {ct dt b : String} {s' : State}
    (h : liquidateAccrue env s ct dt b = .ok s') :
    ∀ a, s.supplyIndex a ≤ s'.supplyIndex a := by
  rw [liquidateAccrue] at h
  simp only [exceptBindOk] at h
  obtain ⟨sA, hA, sB, hB, hC⟩ := h
  intro a
  calc s.supplyIndex a ≤ sA.supplyIndex a := updateSupplyIndex_mono hA a
    _ ≤ sB.supplyIndex a := updateSupplyIndex_mono hB a
    _ = s'.supplyIndex a := by rw [accrueInterest_supplyIndex hC]

theorem liquidatePlan_mono {env : Env} {s : State} {b ct dt : String} {amt : Nat}
    {p : State × AccountHealth × Nat × Nat}
    (h : liquidatePlan env s b ct dt amt = .ok p) :
    ∀ a, s.supplyIndex a ≤ p.1.supplyIndex a := by
  rw [liquidatePlan] at h
  simp only [exceptBindOk] at h
  obtain ⟨s1, hs1, health, _, _, _, _, _, ml, _, cp, _, dp, _, _, _, _, _, cs, _, lb, _, bp, _, cwb, _, h⟩ := h
  rw [purePropOk] at h
  intro a
  have h1 := liquidateAccrue_mono hs1 a
  rw [← h]
  exact h1

theorem liquidate_mono {env : Env} {s : State} {b ct dt : String} {amt : Nat} {s' : State}
    (h : liquidate env s b ct dt amt = .ok s') :
    ∀ a, s.supplyIndex a ≤ s'.supplyIndex a := by
  rw [liquidate] at h
  simp only [exceptBindOk] at h
  obtain ⟨_, _, _, _, ⟨ps, ph, pa, pc⟩, hplan, h⟩ := h
  simp only [exceptBindOk] at h
  obtain ⟨_, _, nd, _, ncl, _, tb, _, tc, _, h⟩ := h
  rw [purePropOk] at h
  intro a
  have h1 := liquidatePlan_mono hplan a
  rw [← h]
  exact h1

theorem flashLoan_mono {env : Env} {s : State} {r t : String} {amt : Nat} {cb : Bool}
    {bal : Nat} {s' : State} (h : flashLoan env s r t amt cb bal = .ok s') :
    ∀ a, s.supplyIndex a ≤ s'.supplyIndex a := by
  rw [flashLoan] at h
  simp only [exceptBindOk] at h
  obtain ⟨_, _, _, _, _, _, _, _, _, _, av, _, _, _, fee, _, _, _, exp, _, _, _, sF, hF, h⟩ := h
  rw [purePropOk] at h
  intro a
  rw [← h]
  show s.supplyIndex a ≤ sF.supplyIndex a
  rw [treasuryAdd_supplyIndex hF]

theorem withdrawTreasuryReserves_mono {env : Env} {s : State} {t : String} {amt : Nat}
    {s' : State} (h : withdrawTreasuryReserves env s t amt = .ok s') :
    ∀ a, s.supplyIndex a ≤ s'.supplyIndex a := by
  rw [withdrawTreasuryReserves] at h
  simp only [exceptBindOk] at h
  obtain ⟨_, _, _, _, _, _, av, _, _, _, _, _, r, _, h⟩ := h
  rw [purePropOk] at h
  intro a
  rw [← h]

theorem addSupportedAsset_mono {env : Env} {s : State} {t : String} {s' : State}
    (h : addSupportedAsset env s t = .ok s') : ∀ a, s.supplyIndex a ≤ s'.supplyIndex a := by
  rw [addSupportedAsset] at h
  simp only [exceptBindOk] at h
  obtain ⟨_, _, h⟩ := h
  rw [purePropOk] at h
  intro a
  rw [← h]

theorem setAssetPrice_mono {env : Env} {s : State} {t : String} {p : Nat} {s' : State}
    (h : setAssetPrice env s t p = .ok s') : ∀ a, s.supplyIndex a ≤ s'.supplyIndex a := by
  rw [setAssetPrice] at h
  simp only [exceptBindOk] at h
  obtain ⟨_, _, _, _, h⟩ := h
  rw [purePropOk] at h
  intro a
  rw [← h]

theorem setInterestRateParams_mono {env : Env} {s : State} {b o s1 s2 : Nat} {s' : State}
    (h : setInterestRateParams env s b o s1 s2 = .ok s') :
    ∀ a, s.supplyIndex a ≤ s'.supplyIndex a := by
  rw [setInterestRateParams] at h
  simp only [exceptBindOk] at h
  obtain ⟨_, _, _, _, h⟩ := h
  rw [purePropOk] at h
  intro a
  rw [← h]

theorem pause_mono {env : Env} {s : State} {s' : State}
    (h : pause env s = .ok s') : ∀ a, s.supplyIndex a ≤ s'.supplyIndex a := by
  rw [pause] at h
  simp only [exceptBindOk] at h
  obtain ⟨_, _, _, _, h⟩ := h
  rw [purePropOk] at h
  intro a
  rw [← h]

theorem unpause_mono {env : Env} {s : State} {s' : State}
    (h : unpause env s = .ok s') : ∀ a, s.supplyIndex a ≤ s'.supplyIndex a := by
  rw [unpause] at h
  simp only [exceptBindOk] at h
  obtain ⟨_, _, _, _, h⟩ := h
  rw [purePropOk] at h
  intro a
  rw [← h]

theorem transferOwnership_mono {env : Env} {s : State} {o : String} {s' : State}
    (h : transferOwnership env s o = .ok s') : ∀ a, s.supplyIndex a ≤ s'.supplyIndex a := by
  rw [transferOwnership] at h
  simp only [exceptBindOk] at h
  obtain ⟨_, _, _, _, h⟩ := h
  rw [purePropOk] at h
  intro a
  rw [← h]

theorem setPriceMaxAge_mono {env : Env} {s : State} {v : Nat} {s' : State}
    (h : setPriceMaxAge env s v = .ok s') : ∀ a, s.supplyIndex a ≤ s'.supplyIndex a := by
  rw [setPriceMaxAge] at h
  simp only [exceptBindOk] at h
  obtain ⟨_, _, h⟩ := h
  rw [purePropOk] at h
  intro a
  rw [← h]

theorem setTWAPPeriod_mono {env : Env} {s : State} {v : Nat} {s' : State}
    (h : setTWAPPeriod env s v = .ok s') : ∀ a, s.supplyIndex a ≤ s'.supplyIndex a := by
  rw [setTWAPPeriod] at h
  simp only [exceptBindOk] at h
  obtain ⟨_, _, _, _, h⟩ := h
  rw [purePropOk] at h
  intro a
  rw [← h]

theorem setAssetPair_mono {env : Env} {s : State} {t p : String} {s' : State}
    (h : setAssetPair env s t p = .ok s') : ∀ a, s.supplyIndex a ≤ s'.supplyIndex a := by
  rw [setAssetPair] at h
  simp only [exceptBindOk] at h
  obtain ⟨_, _, _, _, h⟩ := h
  rw [purePropOk] at h
  intro a
  rw [← h]

theorem setReserveFactor_mono {env : Env} {s : State} {v : Nat} {s' : State}
    (h : setReserveFactor env s v = .ok s') : ∀ a, s.supplyIndex a ≤ s'.supplyIndex a := by
  rw [setReserveFactor] at h
  simp only [exceptBindOk] at h
  obtain ⟨_, _, _, _, h⟩ := h
  rw [purePropOk] at h
  intro a
  rw [← h]

theorem setTreasuryAddress_mono {env : Env} {s : State} {t : String} {s' : State}
    (h : setTreasuryAddress env s t = .ok s') : ∀ a, s.supplyIndex a ≤ s'.supplyIndex a := by
  rw [setTreasuryAddress] at h
  simp only [exceptBindOk] at h
  obtain ⟨_, _, h⟩ := h
  rw [purePropOk] at h
  intro a
  rw [← h]

theorem setCloseFactor_mono {env : Env} {s : State} {v : Nat} {s' : State}
    (h : setCloseFactor env s v = .ok s') : ∀ a, s.supplyIndex a ≤ s'.supplyIndex a := by
  rw [setCloseFactor] at h
  simp only [exceptBindOk] at h
  obtain ⟨_, _, _, _, h⟩ := h
  rw [purePropOk] at h
  intro a
  rw [← h]

theorem setLiquidationBonusRange_mono {env : Env} {s : State} {mn mx : Nat} {s' : State}
    (h : setLiquidationBonusRange env s mn mx = .ok s') :
    ∀ a, s.supplyIndex a ≤ s'.supplyIndex a := by
  rw [setLiquidationBonusRange] at h
  simp only [exceptBindOk] at h
  obtain ⟨_, _, _, _, _, _, h⟩ := h
  rw [purePropOk] at h
  intro a
  rw [← h]

theorem setFlashLoanFee_mono {env : Env} {s : State} {v : Nat} {s' : State}
    (h : setFlashLoanFee env s v = .ok s') : ∀ a, s.supplyIndex a ≤ s'.supplyIndex a := by
  rw [setFlashLoanFee] at h
  simp only [exceptBindOk] at h
  obtain ⟨_, _, _, _, h⟩ := h
  rw [purePropOk] at h
  intro a
  rw [← h]

theorem setFlashLoanEnabled_mono {env : Env} {s : State} {b : Bool} {s' : State}
    (h : setFlashLoanEnabled env s b = .ok s') : ∀ a, s.supplyIndex a ≤ s'.supplyIndex a := by
  rw [setFlashLoanEnabled] at h
  simp only [exceptBindOk] at h
  obtain ⟨_, _, h⟩ := h
  rw [purePropOk] at h
  intro a
  rw [← h]

theorem applyOp_mono {env : Env} {s : State} {op : Op} {s' : State}
    (h : applyOp env s op = .ok s') : ∀ a, s.supplyIndex a ≤ s'.supplyIndex a := by
  cases op with
  | opDeposit t a => exact depositCollateral_mono h
  | opWithdraw t a => exact withdrawCollateral_mono h
  | opEmergencyWithdraw t a => exact emergencyWithdraw_mono h
  | opBorrow t a => exact borrow_mono h
  | opRepay t a => exact repay_mono h
  | opLiquidate b ct dt a => exact liquidate_mono h
  | opFlashLoan r t a cb bal => exact @flashLoan_mono env s r t a cb bal s' h
  | opAddSupportedAsset t => exact addSupportedAsset_mono h
  | opSetAssetPrice t p => exact setAssetPrice_mono h
  | opSetInterestRateParams b o s1 s2 => exact setInterestRateParams_mono h
  | opPause => exact pause_mono h
  | opUnpause => exact unpause_mono h
  | opTransferOwnership o => exact transferOwnership_mono h
  | opSetPriceMaxAge v => exact setPriceMaxAge_mono h
  | opSetTWAPPeriod v => exact setTWAPPeriod_mono h
  | opSetAssetPair t p => exact setAssetPair_mono h
  | opSetReserveFactor v => exact setReserveFactor_mono h
  | opSetTreasuryAddress a => exact setTreasuryAddress_mono h
  | opWithdrawTreasuryReserves t a => exact withdrawTreasuryReserves_mono h
  | opSetCloseFactor v => exact setCloseFactor_mono h
  | opSetLiquidationBonusRange mn mx => exact setLiquidationBonusRange_mono h
  | opSetFlashLoanFee v => exact setFlashLoanFee_mono h
  | opSetFlashLoanEnabled b => exact setFlashLoanEnabled_mono h

/-- C9: the per-asset global supply index never decreases across any
sequence of operations — deposits, withdrawals, borrows, repayments,
liquidations, flash loans and admin parameter changes. -/
theorem runOps_supplyIndex_mono :
    ∀ (ops : List (Env × Op)) (s s' : State), runOps ops s = .ok s' →
      ∀ a, s.supplyIndex a ≤ s'.supplyIndex a := by
  intro ops
  induction ops with
  | nil =>
    intro s s' h a
    cases h
    exact Nat.le_refl _
  | cons p rest ih =>
    obtain ⟨env, op⟩ := p
    intro s s' h a
    rw [runOps] at h
    simp only [exceptBindOk] at h
    obtain ⟨s1, hs1, h⟩ := h
    exact Nat.le_trans (applyOp_mono hs1 a) (ih s1 s' h a)

theorem sub_ok_le {a b c : Nat} (h : SafeMath.sub a b = .ok c) : b ≤ a ∧ c = a - b := by
  unfold SafeMath.sub at h
  split at h
  · cases h
    exact ⟨by assumption, rfl⟩
  · cases h

theorem mul_lt_mod {a b : Nat} : SafeMath.mul a b < U256MOD := by
  unfold SafeMath.mul
  split
  · decide
  · exact Nat.mod_lt _ (by decide)

theorem mulFee_lt {a b : Nat} : SafeMath.mul a b / 10000 < U256MOD :=
  Nat.lt_of_le_of_lt (Nat.div_le_self _ _) mul_lt_mod

theorem mulBP_ok_val {v bp c : Nat} (h : SafeMath.mulBP v bp = .ok c) :
    c = SafeMath.mul v bp / 10000 := by
  rw [SafeMath.mulBP_ok] at h
  cases h
  rfl

theorem treasuryAdd_val {s : State} {t : String} {a : Nat} {s' : State}
    (h : treasuryAdd s t a = .ok s') (ht : s.treasuryReserves t < U256MOD) (ha : a < U256MOD) :
    s'.treasuryReserves t = s.treasuryReserves t + a := by
  rw [treasuryAdd] at h
  simp only [exceptBindOk] at h
  obtain ⟨r, hr, h⟩ := h
  rw [purePropOk] at h
  rw [← h]
  show upd1 s.treasuryReserves t r t = _
  rw [upd1, if_pos rfl]
  exact SafeMath.add_ok_sum ht ha hr

/-- C2 (amended): `flashLoan` fails whenever the pool's available liquidity
`totalCollateral - totalBorrows` is below the requested amount, while
`withdrawCollateral` performs no such liquidity check — a successful
withdrawal only guarantees `amount ≤ totalCollateral` (the underflow assert)
besides the user-collateral and health gates. -/
theorem flashLoan_liquidity_gate_withdraw_none :
    (∀ (env : Env) (s : State) (r t : String) (amt : Nat) (cb : Bool) (bal : Nat),
      s.totalCollateral t < s.totalBorrows t + amt →
      (flashLoan env s r t amt cb bal).isOk = false) ∧
    (∀ (env : Env) (s : State) (t : String) (amt : Nat) (s' : State),
      withdrawCollateral env s t amt = .ok s' → amt ≤ s.totalCollateral t) := by
  constructor
  · intro env s r t amt cb bal hlt
    cases hres : flashLoan env s r t amt cb bal with
    | error e => rfl
    | ok s2 =>
      exfalso
      rw [flashLoan] at hres
      simp only [exceptBindOk] at hres
      obtain ⟨_, _, _, _, _, _, _, _, _, _, av, hav, _, hreq, rest⟩ := hres
      obtain ⟨hble, hav2⟩ := sub_ok_le hav
      have := requireB_ok hreq
      simp only [decide_eq_true_eq] at this
      omega
  · intro env s t amt s' h
    rw [withdrawCollateral] at h
    simp only [exceptBindOk] at h
    obtain ⟨s2, hs2, health, _, _, _, tc, htc, h⟩ := h
    obtain ⟨hle, _⟩ := sub_ok_le htc
    rw [withdrawPre_totalCollateral hs2] at hle
    exact hle

/-- C3: flash-loan atomicity — a `false` callback or a post-callback balance
below `balanceBefore + fee` aborts the whole operation (no state survives);
on success the full fee `mulBP(amount, flashLoanFee)` is credited to the
asset's treasury reserves. -/
theorem flashLoan_atomicity :
    (∀ (env : Env) (s : State) (r t : String) (amt : Nat) (cb : Bool) (bal : Nat),
      env.balanceOf t < U256MOD →
      (cb = false ∨ bal < env.balanceOf t + SafeMath.mul amt s.flashLoanFee / 10000) →
      (flashLoan env s r t amt cb bal).isOk = false) ∧
    (∀ (env : Env) (s : State) (r t : String) (amt : Nat) (cb : Bool) (bal : Nat) (s' : State),
      flashLoan env s r t amt cb bal = .ok s' →
      env.balanceOf t < U256MOD → s.treasuryReserves t < U256MOD →
      s'.treasuryReserves t = s.treasuryReserves t + SafeMath.mul amt s.flashLoanFee / 10000 ∧
        cb = true ∧
        env.balanceOf t + SafeMath.mul amt s.flashLoanFee / 10000 ≤ bal) := by
  constructor
  · intro env s r t amt cb bal hb hbad
    cases hres : flashLoan env s r t amt cb bal with
    | error e => rfl
    | ok s2 =>
      exfalso
      rw [flashLoan] at hres
      simp only [exceptBindOk] at hres
      obtain ⟨_, _, _, _, _, _, _, _, _, _, av, hav, _, _, fee, hfee, _, hcb, exp, hexp, _, hbal, rest⟩ := hres
      have hcbt := requireB_ok hcb
      have hfeev := mulBP_ok_val hfee
      have hexpv := SafeMath.add_ok_sum hb (by rw [hfeev]; exact mulFee_lt) hexp
      have hbalv := requireB_ok hbal
      simp only [decide_eq_true_eq] at hbalv
      rcases hbad with hcbf | hlt
      · rw [hcbt] at hcbf
        cases hcbf
      · rw [hexpv, hfeev] at hbalv
        omega
  · intro env s r t amt cb bal s' h hb ht
    rw [flashLoan] at h
    simp only [exceptBindOk] at h
    obtain ⟨_, _, _, _, _, _, _, _, _, _, av, hav, _, _, fee, hfee, _, hcb, exp, hexp, _, hbal, sF, hsF, h⟩ := h
    rw [purePropOk] at h
    have hfeev := mulBP_ok_val hfee
    have hcbt := requireB_ok hcb
    have hexpv := SafeMath.add_ok_sum hb (by rw [hfeev]; exact mulFee_lt) hexp
    have hbalv := requireB_ok hbal
    simp only [decide_eq_true_eq] at hbalv
    refine ⟨?_, hcbt, ?_⟩
    · rw [← h]
      show sF.treasuryReserves t = _
      rw [treasuryAdd_val hsF ht (by rw [hfeev]; exact mulFee_lt), hfeev]
    · rw [hexpv, hfeev] at hbalv
      exact hbalv

/-- C1 (amended): only `withdrawCollateral` enforces the 1.1e18 buffer — a
successful withdrawal whose health check saw `totalBorrowValue > 0` had
`healthFactor ≥ 1.1e18` there; a successful `borrow` guarantees only
`isHealthy` and the collateral-factor LTV bound at its health check. -/
theorem health_buffer_gates :
    (∀ (env : Env) (s : State) (t : String) (amt : Nat) (s' : State) (h : AccountHealth),
      withdrawCollateral env s t amt = .ok s' →
      withdrawHealthAtCheck env s t amt = .ok h →
      0 < h.totalBorrowValue →
      1100000000000000000 ≤ h.healthFactor) ∧
    (∀ (env : Env) (s : State) (t : String) (amt : Nat) (s' : State) (h : AccountHealth),
      borrow env s t amt = .ok s' →
      borrowHealthAtCheck env s t amt = .ok h →
      h.isHealthy = true ∧
        h.totalBorrowValue ≤ SafeMath.mul h.totalCollateralValue s.collateralFactor / 10000) := by
  constructor
  · intro env s t amt s' h hw hh htbv
    rw [withdrawCollateral] at hw
    simp only [exceptBindOk] at hw
    obtain ⟨s2, hs2, health, hhe, _, hgate, rest⟩ := hw
    rw [withdrawHealthAtCheck] at hh
    simp only [exceptBindOk] at hh
    obtain ⟨s2x, hs2x, hhx⟩ := hh
    rw [hs2] at hs2x
    cases hs2x
    rw [hhe] at hhx
    cases hhx
    rw [withdrawHealthGate, if_pos htbv] at hgate
    simp only [exceptBindOk] at hgate
    obtain ⟨_, _, ms, hms, hreq⟩ := hgate
    have hmsv : SafeMath.div (SafeMath.mul PRICE_PRECISION 11) 10 = .ok 1100000000000000000 := by
      rfl
    rw [hmsv] at hms
    cases hms
    have := requireB_ok hreq
    simpa using this
  · intro env s t amt s' h hb hh
    rw [borrow] at hb
    simp only [exceptBindOk] at hb
    obtain ⟨s2, hs2, health, hhe, _, hhealthy, mbv, hmbv, _, hltv, hfin⟩ := hb
    rw [borrowHealthAtCheck] at hh
    simp only [exceptBindOk] at hh
    obtain ⟨s2x, hs2x, hhx⟩ := hh
    rw [hs2] at hs2x
    cases hs2x
    rw [hhe] at hhx
    cases hhx
    refine ⟨requireB_ok hhealthy, ?_⟩
    have hltvv := requireB_ok hltv
    simp only [decide_eq_true_eq] at hltvv
    rw [mulBP_ok_val hmbv, borrowPre_collateralFactor hs2] at hltvv
    exact hltvv

theorem calcAccountHealth_isHealthy {env : Env} {s : State} {user : String} {h : AccountHealth}
    (hh : calcAccountHealth env s user = .ok h) :
    h.isHealthy = (decide (PRICE_PRECISION ≤ h.healthFactor) || decide (h.totalBorrowValue = 0)) := by
  rw [calcAccountHealth] at hh
  simp only [exceptBindOk] at hh
  obtain ⟨acc, _, hh⟩ := hh
  split at hh
  case isTrue hz =>
    rw [purePropOk] at hh
    rw [← hh]
    have : ¬ PRICE_PRECISION ≤ (0xFFFFFFFF : Nat) := by decide
    simp [this, hz]
  case isFalse hz =>
    simp only [exceptBindOk] at hh
    obtain ⟨adj, _, hf, _, hh⟩ := hh
    rw [purePropOk] at hh
    rw [← hh]
    simp [hz]

/-- C5: `liquidate` rejects every target whose account health, computed after
the supply-index updates and debt accrual at the moment of the call, is
healthy — that is, whose health factor is at least 1e18 or whose
totalBorrowValue is zero. -/
theorem liquidate_healthy_rejected :
    ∀ (env : Env) (s : State) (b ct dt : String) (amt : Nat) (s1 : State) (h : AccountHealth),
      liquidateAccrue env { s with reentrancy := true } ct dt b = .ok s1 →
      calcAccountHealth env s1 b = .ok h →
      (PRICE_PRECISION ≤ h.healthFactor ∨ h.totalBorrowValue = 0) →
      (liquidate env s b ct dt amt).isOk = false := by
  intro env s b ct dt amt s1 h hacc hhe hdisj
  cases hres : liquidate env s b ct dt amt with
  | error e => rfl
  | ok s2 =>
    exfalso
    rw [liquidate] at hres
    simp only [exceptBindOk] at hres
    obtain ⟨_, _, _, _, ⟨ps, ph, pa, pc⟩, hplan, rest⟩ := hres
    rw [liquidatePlan] at hplan
    simp only [exceptBindOk] at hplan
    obtain ⟨s1x, hs1x, hx, hhx, _, hreq, restp⟩ := hplan
    rw [hacc] at hs1x
    cases hs1x
    rw [hhe] at hhx
    cases hhx
    have hreqv := requireB_ok hreq
    have hheal := calcAccountHealth_isHealthy hhe
    rw [Bool.not_eq_true'] at hreqv
    rw [hreqv] at hheal
    rcases hdisj with hge | hz
    · simp [decide_eq_true hge] at hheal
    · simp [hz] at hheal

theorem bindOkL {α β : Type} (a : α) (f : α → Except String β) :
    ((Except.ok a : Except String α) >>= f) = f a := rfl

theorem u32sub_of_le {a b : Nat} (hba : b ≤ a) (ha : a < U32MOD) :
    InterestRateModel.u32sub a b = a - b := by
  unfold InterestRateModel.u32sub
  rw [Nat.mod_eq_of_lt ha, Nat.mod_eq_of_lt (Nat.lt_of_le_of_lt hba ha)]
  have h1 : a + U32MOD - b = U32MOD + (a - b) := by omega
  rw [h1, Nat.add_mod_left, Nat.mod_eq_of_lt (by omega)]

/-- C6: for every configured range with `bonusMin ≤ bonusMax` (u32 values),
the computed liquidation bonus equals the spec's interpolation formula and
lies in `[bonusMin, bonusMax]`. -/
theorem liquidationBonus_spec :
    ∀ (s : State) (hf : Nat),
      s.liquidationBonusMin ≤ s.liquidationBonusMax →
      s.liquidationBonusMax < U32MOD →
      calcLiquidationBonus s hf
          = .ok (bonusSpec s.liquidationBonusMin s.liquidationBonusMax hf) ∧
        s.liquidationBonusMin ≤ bonusSpec s.liquidationBonusMin s.liquidationBonusMax hf ∧
        bonusSpec s.liquidationBonusMin s.liquidationBonusMax hf ≤ s.liquidationBonusMax := by
  intro s hf hle hmax
  rw [calcLiquidationBonus, bonusSpec]
  by_cases h1 : PRICE_PRECISION ≤ hf
  · rw [if_pos h1, if_pos h1]
    exact ⟨rfl, Nat.le_refl _, hle⟩
  · rw [if_neg h1, if_neg h1]
    have hhp : SafeMath.div PRICE_PRECISION 2 = .ok 500000000000000000 := by rfl
    rw [hhp, bindOkL]
    by_cases h2 : hf ≤ 500000000000000000
    · rw [if_pos h2, if_pos h2]
      exact ⟨rfl, hle, Nat.le_refl _⟩
    · rw [if_neg h2, if_neg h2]
      have hsub : SafeMath.sub hf 500000000000000000 = .ok (hf - 500000000000000000) := by
        unfold SafeMath.sub
        rw [if_pos (by omega)]
      have hrange : InterestRateModel.u32sub s.liquidationBonusMax s.liquidationBonusMin
          = s.liquidationBonusMax - s.liquidationBonusMin := u32sub_of_le hle hmax
      rw [hrange, hsub, bindOkL]
      have hmulv : SafeMath.mul (hf - 500000000000000000)
          (s.liquidationBonusMax - s.liquidationBonusMin)
          = (hf - 500000000000000000) * (s.liquidationBonusMax - s.liquidationBonusMin) := by
        unfold SafeMath.mul
        rw [if_neg (by omega)]
        have hlt : (hf - 500000000000000000) * (s.liquidationBonusMax - s.liquidationBonusMin)
            < U256MOD := by
          have h5 : hf - 500000000000000000 < 500000000000000000 := by
            simp only [PRICE_PRECISION] at h1
            omega
          have h6 : s.liquidationBonusMax - s.liquidationBonusMin < U32MOD :=
            Nat.lt_of_le_of_lt (Nat.sub_le _ _) hmax
          calc (hf - 500000000000000000) * (s.liquidationBonusMax - s.liquidationBonusMin)
              ≤ 500000000000000000 * U32MOD := Nat.mul_le_mul (by omega) (by omega)
            _ < U256MOD := by decide
        exact Nat.mod_eq_of_lt hlt
      rw [hmulv]
      dsimp only
      rw [SafeMath.div_ok _ _ (by decide), bindOkL]
      have hredle : (hf - 500000000000000000) * (s.liquidationBonusMax - s.liquidationBonusMin)
          / 500000000000000000 ≤ s.liquidationBonusMax - s.liquidationBonusMin := by
        have h5 : hf - 500000000000000000 ≤ 500000000000000000 := by
          simp only [PRICE_PRECISION] at h1
          omega
        calc (hf - 500000000000000000) * (s.liquidationBonusMax - s.liquidationBonusMin)
              / 500000000000000000
            ≤ 500000000000000000 * (s.liquidationBonusMax - s.liquidationBonusMin)
              / 500000000000000000 :=
              Nat.div_le_div_right (Nat.mul_le_mul_right _ h5)
          _ = s.liquidationBonusMax - s.liquidationBonusMin :=
              Nat.mul_div_cancel_left _ (by decide)
      have hredlt : (hf - 500000000000000000) * (s.liquidationBonusMax - s.liquidationBonusMin)
          / 500000000000000000 < U32MOD :=
        Nat.lt_of_le_of_lt hredle (Nat.lt_of_le_of_lt (Nat.sub_le _ _) hmax)
      have htr : (hf - 500000000000000000) * (s.liquidationBonusMax - s.liquidationBonusMin)
          / 500000000000000000 % U64MOD % U32MOD
          = (hf - 500000000000000000) * (s.liquidationBonusMax - s.liquidationBonusMin)
            / 500000000000000000 := by
        rw [Nat.mod_eq_of_lt (Nat.lt_of_lt_of_le hredlt (by decide)),
          Nat.mod_eq_of_lt hredlt]
      rw [htr]
      by_cases h3 : s.liquidationBonusMax - s.liquidationBonusMin
          ≤ (hf - 500000000000000000) * (s.liquidationBonusMax - s.liquidationBonusMin)
            / 500000000000000000
      · rw [if_pos h3]
        have hredeq : (hf - 500000000000000000)
            * (s.liquidationBonusMax - s.liquidationBonusMin) / 500000000000000000
            = s.liquidationBonusMax - s.liquidationBonusMin := Nat.le_antisymm hredle h3
        refine ⟨?_, by omega, by omega⟩
        rw [purePropOk]
        omega
      · rw [if_neg h3]
        have hredmx : (hf - 500000000000000000)
            * (s.liquidationBonusMax - s.liquidationBonusMin) / 500000000000000000
            ≤ s.liquidationBonusMax := Nat.le_trans hredle (Nat.sub_le _ _)
        have hsub2 := u32sub_of_le hredmx hmax
        refine ⟨?_, by omega, by omega⟩
        rw [purePropOk, hsub2]

theorem healthStep_err_zero_price_debt {env : Env} {s : State} {user token : String}
    (hsupp : s.supportedAssets token = true) (hprice : getAssetPrice env s token = .ok 0)
    (hdebt : 0 < s.userDebt user token) :
    ∀ acc, (healthStep env s user acc token).isOk = false := by
  intro acc
  rw [healthStep]
  rw [if_neg (by rw [hsupp]; simp)]
  cases hc : healthAssetCollateral env s user token with
  | error e => rfl
  | ok c =>
    rw [bindOkL, hprice, bindOkL]
    rw [if_pos ⟨hdebt, rfl⟩]
    rfl

theorem healthFold_err {env : Env} {s : State} {user token : String}
    (hstep : ∀ acc, (healthStep env s user acc token).isOk = false) :
    ∀ (l : List String) (acc : Nat × Nat), token ∈ l →
      (healthFold env s user acc l).isOk = false := by
  intro l
  induction l with
  | nil =>
    intro acc hmem
    cases hmem
  | cons t rest ih =>
    intro acc hmem
    rw [healthFold]
    cases hstept : healthStep env s user acc t with
    | error e => rfl
    | ok acc1 =>
      rw [bindOkL]
      rcases List.mem_cons.mp hmem with heq | hrest
      · exfalso
        rw [← heq] at hstept
        have := hstep acc
        rw [hstept] at this
        cases this
      · exact ih acc1 hrest

/-- C7: in the account-health computation, an asset in the user's membership
list whose resolved price is zero makes the whole call fail when the user has
debt in it, and contributes nothing (the accumulator passes through
unchanged) when the user holds only collateral in it. -/
theorem health_zero_price :
    (∀ (env : Env) (s : State) (user token : String),
      token ∈ s.userAssets user → s.supportedAssets token = true →
      getAssetPrice env s token = .ok 0 → 0 < s.userDebt user token →
      (calcAccountHealth env s user).isOk = false) ∧
    (∀ (env : Env) (s : State) (user token : String) (acc : Nat × Nat) (c : Nat),
      s.supportedAssets token = true → getAssetPrice env s token = .ok 0 →
      s.userDebt user token = 0 → healthAssetCollateral env s user token = .ok c →
      healthStep env s user acc token = .ok acc) := by
  constructor
  · intro env s user token hmem hsupp hprice hdebt
    rw [calcAccountHealth]
    cases hfold : healthFold env s user (0, 0) (s.userAssets user) with
    | error e => rfl
    | ok acc =>
      exfalso
      have := healthFold_err (healthStep_err_zero_price_debt hsupp hprice hdebt)
        (s.userAssets user) (0, 0) hmem
      rw [hfold] at this
      cases this
  · intro env s user token acc c hsupp hprice hdebt hcoll
    rw [healthStep]
    rw [if_neg (by rw [hsupp]; simp)]
    rw [hcoll, bindOkL, hprice, bindOkL]
    rw [if_neg (by rw [hdebt]; simp)]
    rw [if_pos rfl]
    rfl

theorem powerB_char (x : Nat) (y : Int) (hy : y ≠ 0) (hlt : y.natAbs < 2 ^ 20)
    (hx : x ≤ BinHelperB.MAX_U128) :
    BinHelperB.power x y =
      if BinHelperB.powerLoopB 64 BinHelperB.ONE_128128 x y.natAbs = 0 then
        .error "BinHelper: Power underflow"
      else .ok (if y < 0 then
          BinHelperB.MAX / BinHelperB.powerLoopB 64 BinHelperB.ONE_128128 x y.natAbs
        else BinHelperB.powerLoopB 64 BinHelperB.ONE_128128 x y.natAbs) := by
  rw [BinHelperB.power, if_neg hy, if_neg (by omega)]
  dsimp only
  rw [if_neg (Nat.not_lt.mpr hx), if_neg (Nat.not_lt.mpr hx)]
  by_cases hz : BinHelperB.powerLoopB 64 BinHelperB.ONE_128128 x y.natAbs = 0
  · rw [if_pos hz, if_pos hz]
  · rw [if_neg hz, if_neg hz]
    by_cases hneg : y < 0
    · rw [if_pos (by simp [hneg]), if_pos hneg]
    · rw [if_neg (by simp [hneg]), if_neg hneg]

/-- C8 (amended): the second `BinHelper.power` variant rejects every exponent
whose magnitude is at or above 2^20, and for a base within u128 range it
computes a negative exponent as `MAX / x^|y|` (the inversion of the
positive-exponent result); the first variant carries no magnitude check. -/
theorem power_magnitude_bound :
    (∀ (x : Nat) (y : Int), 2 ^ 20 ≤ y.natAbs → (BinHelperB.power x y).isOk = false) ∧
    (∀ (x n r : Nat), 0 < n → n < 2 ^ 20 → x ≤ BinHelperB.MAX_U128 →
      BinHelperB.power x (n : Int) = .ok r →
      BinHelperB.power x (-(n : Int)) = .ok (BinHelperB.MAX / r)) := by
  constructor
  · intro x y hy
    rw [BinHelperB.power]
    have hy0 : y ≠ 0 := by
      intro hz
      rw [hz] at hy
      simp at hy
    rw [if_neg hy0]
    rw [if_pos (by omega)]
    rfl
  · intro x n r hn hlt hx hok
    have h1 := powerB_char x (n : Int) (by intro hc; omega)
      (by simpa using hlt) hx
    have h2 := powerB_char x (-(n : Int)) (by intro hc; omega)
      (by rw [Int.natAbs_neg]; simpa using hlt) hx
    rw [h1, Int.natAbs_ofNat] at hok
    rw [h2, Int.natAbs_neg, Int.natAbs_ofNat]
    split at hok
    case isTrue hz =>
      cases hok
    case isFalse hz =>
      rw [if_neg hz]
      rw [if_neg (by omega)] at hok
      cases hok
      rw [if_pos (by omega)]

theorem liquidateAccrue_core {env : Env} {s : State} {ct dt b : String} {s' : State}
    (h : liquidateAccrue env s ct dt b = .ok s') :
    s'.userCollateral = s.userCollateral ∧ s'.userSupplyIndex = s.userSupplyIndex := by
  rw [liquidateAccrue] at h
  simp only [exceptBindOk] at h
  obtain ⟨sA, hA, sB, hB, hC⟩ := h
  obtain ⟨a1, a2, _, _⟩ := updateSupplyIndex_core hA
  obtain ⟨b1, b2, _, _⟩ := updateSupplyIndex_core hB
  obtain ⟨c1, c2, _, _⟩ := accrueInterest_core hC
  exact ⟨by rw [c1, b1, a1], by rw [c2, b2, a2]⟩

theorem liquidatePlan_core {env : Env} {s0 : State} {b ct dt : String} {amt : Nat}
    {s1 : State} {h : AccountHealth} {actual seize : Nat}
    (hplan : liquidatePlan env s0 b ct dt amt = .ok (s1, h, actual, seize)) :
    s1.userCollateral = s0.userCollateral ∧ s1.userSupplyIndex = s0.userSupplyIndex := by
  rw [liquidatePlan] at hplan
  simp only [exceptBindOk] at hplan
  obtain ⟨s1x, hs1x, hx, hhx, _, _, _, _, _, _, _, _, _, _, _, _, _, _, _, _, _, _, _, _, _, _, hfin⟩ :=
    hplan
  rw [purePropOk] at hfin
  cases hfin
  exact liquidateAccrue_core hs1x

/-- C10: the collateral-sufficiency check and the seizure in `liquidate` use
the borrower's raw stored collateral for the collateral asset — no
supply-index normalization is applied to it, and the borrower's user supply
index for that asset is left unchanged by the whole operation. -/
theorem liquidate_raw_collateral :
    ∀ (env : Env) (s : State) (b ct dt : String) (amt : Nat) (s' s1 : State)
      (h : AccountHealth) (actual seize : Nat),
      liquidate env s b ct dt amt = .ok s' →
      liquidatePlan env { s with reentrancy := true } b ct dt amt = .ok (s1, h, actual, seize) →
      s'.userSupplyIndex b ct = s.userSupplyIndex b ct ∧
        s1.userCollateral b ct = s.userCollateral b ct ∧
        seize ≤ s.userCollateral b ct ∧
        s'.userCollateral b ct = s.userCollateral b ct - seize := by
  intro env s b ct dt amt s' s1 h actual seize hliq hplan
  have huc : s1.userCollateral = s.userCollateral := (liquidatePlan_core hplan).1
  have husi : s1.userSupplyIndex = s.userSupplyIndex := (liquidatePlan_core hplan).2
  rw [liquidate] at hliq
  simp only [exceptBindOk] at hliq
  obtain ⟨_, _, _, _, ⟨ps, ph, pa, pc⟩, hplanx, hrest⟩ := hliq
  rw [hplan] at hplanx
  cases hplanx
  simp only [exceptBindOk] at hrest
  obtain ⟨_, hcheck, nd, hnd, ncl, hncl, tb, htb, tc, htc, hrest⟩ := hrest
  rw [purePropOk] at hrest
  have hcheckv := requireB_ok hcheck
  simp only [decide_eq_true_eq] at hcheckv
  obtain ⟨hsle, hsval⟩ := sub_ok_le hncl
  refine ⟨?_, ?_, ?_, ?_⟩
  · rw [← hrest]
    show s1.userSupplyIndex b ct = s.userSupplyIndex b ct
    rw [husi]
  · rw [huc]
  · rw [huc] at hcheckv
    exact hcheckv
  · rw [← hrest]
    show upd2 s1.userCollateral b ct ncl b ct = s.userCollateral b ct - seize
    rw [upd2, hsval, huc]
    simp

theorem health_buffer_gates_witness :
    1100000000000000000 ≤
      (AccountHealth.mk 9900000000000000000000 100000000000000000000 79200000000000000000
        true).healthFactor ∧
    ((AccountHealth.mk 10000000000000000000000 7500000000000000000000 1066666666666666666
        true).isHealthy = true ∧
      (AccountHealth.mk 10000000000000000000000 7500000000000000000000 1066666666666666666
        true).totalBorrowValue ≤
        SafeMath.mul (AccountHealth.mk 10000000000000000000000 7500000000000000000000
          1066666666666666666 true).totalCollateralValue stC1.collateralFactor / 10000) :=
  ⟨health_buffer_gates.1 env0 stW "A" 100 c1wOut
      (AccountHealth.mk 9900000000000000000000 100000000000000000000 79200000000000000000 true)
      rfl rfl (by decide),
    health_buffer_gates.2 env0 stC1 "A" 7500 c1bOut
      (AccountHealth.mk 10000000000000000000000 7500000000000000000000 1066666666666666666 true)
      rfl rfl⟩

/-- C1 counterexample: from `stC1` (collateral 10000, price 1, default
parameters) a borrow of 7500 succeeds, yet the post-operation health factor
is ≈1.0667e18 < 1.1e18 while totalBorrowValue > 0. -/
theorem borrow_no_buffer_cex :
    (borrow env0 stC1 "A" 7500).isOk = true ∧
    ((borrow env0 stC1 "A" 7500).bind (fun s1 => calcAccountHealth env0 s1 "u"))
      = .ok (AccountHealth.mk 10000000000000000000000 7500000000000000000000
          1066666666666666666 true) ∧
    0 < (7500000000000000000000 : Nat) ∧
    (1066666666666666666 : Nat) < 1100000000000000000 :=
  ⟨rfl, rfl, by decide, by decide⟩

/-- C2 counterexample: on `stC2` the pool's available liquidity for asset A
is 100 − 60 = 40, yet a withdrawal of 80 succeeds. -/
theorem withdraw_no_liquidity_check_cex :
    (withdrawCollateral env0 stC2 "A" 80).isOk = true ∧
    stC2.totalCollateral "A" - stC2.totalBorrows "A" < 80 :=
  ⟨rfl, by decide⟩

theorem flashLoan_liquidity_gate_witness :
    (flashLoan env0 stC2 "R" "A" 80 true 0).isOk = false ∧
    (80 : Nat) ≤ stC2.totalCollateral "A" :=
  ⟨flashLoan_liquidity_gate_withdraw_none.1 env0 stC2 "R" "A" 80 true 0 (by decide),
    flashLoan_liquidity_gate_withdraw_none.2 env0 stC2 "A" 80 c2wOut rfl⟩

theorem flashLoan_atomicity_witness :
    (flashLoan env0 stC2 "R" "A" 40 false 99999).isOk = false ∧
    (c3Out.treasuryReserves "A"
        = stC1.treasuryReserves "A" + SafeMath.mul 10000 stC1.flashLoanFee / 10000 ∧
      true = true ∧
      env0.balanceOf "A" + SafeMath.mul 10000 stC1.flashLoanFee / 10000 ≤ 20009) :=
  ⟨flashLoan_atomicity.1 env0 stC2 "R" "A" 40 false 99999 (by decide) (Or.inl rfl),
    flashLoan_atomicity.2 env0 stC1 "R" "A" 10000 true 20009 c3Out rfl (by decide) (by decide)⟩

/-- C4: the first SafeMath variant's `mul` silently wraps — at
`a = b = 2^128` it returns 0 with no abort, disagreeing with the
infinite-precision product, while the second variant's `mul` aborts on the
same input; zero divisors abort in the division-family operations. -/
theorem safeMul_silent_wrap :
    SafeMath.mul (2 ^ 128) (2 ^ 128) = 0 ∧
    2 ^ 128 * 2 ^ 128 ≠ 0 ∧
    SafeMathB.mul (2 ^ 128) (2 ^ 128) = .error "SafeMath: multiplication overflow" ∧
    SafeMath.div 1 0 = .error "SafeMath: division by zero" ∧
    SafeMath.mod 1 0 = .error "SafeMath: modulo by zero" ∧
    SafeMath.divBP 1 0 = .error "SafeMath: division by zero basis points" ∧
    SafeMath.percentage 1 1 0 = .error "SafeMath: percentage division by zero" :=
  ⟨rfl, by decide, rfl, rfl, rfl, rfl, rfl⟩

theorem liquidate_healthy_rejected_witness :
    (liquidate env0 stC1 "u" "A" "A" 500).isOk = false :=
  liquidate_healthy_rejected env0 stC1 "u" "A" "A" 500 c5acc
    (AccountHealth.mk 10000000000000000000000 0 0xFFFFFFFF true) rfl rfl (Or.inr rfl)

theorem liquidationBonus_spec_witness :
    calcLiquidationBonus stC1 750000000000000000
        = .ok (bonusSpec stC1.liquidationBonusMin stC1.liquidationBonusMax 750000000000000000) ∧
      stC1.liquidationBonusMin
        ≤ bonusSpec stC1.liquidationBonusMin stC1.liquidationBonusMax 750000000000000000 ∧
      bonusSpec stC1.liquidationBonusMin stC1.liquidationBonusMax 750000000000000000
        ≤ stC1.liquidationBonusMax :=
  liquidationBonus_spec stC1 750000000000000000 (by decide) (by decide)

theorem health_zero_price_witness :
    (calcAccountHealth env0 stC7 "u").isOk = false ∧
    healthStep env0 stC7b "u" (3, 4) "A" = .ok (3, 4) :=
  ⟨health_zero_price.1 env0 stC7 "u" "A" (by decide) rfl rfl (by decide),
    health_zero_price.2 env0 stC7b "u" "A" (3, 4) 10000 rfl rfl rfl rfl⟩

theorem power_magnitude_bound_witness :
    (BinHelperB.power 5 1048576).isOk = false ∧
    BinHelperB.power (2 ^ 64) (-((2 : Nat) : Int)) = .ok (BinHelperB.MAX / 1) :=
  ⟨power_magnitude_bound.1 5 1048576 (by decide),
    power_magnitude_bound.2 (2 ^ 64) 2 1 (by decide) (by decide) (by decide) rfl⟩

/-- C8 counterexample: the first `BinHelper.power` variant does not fail at
exponent magnitude 2^20 — with the 1-basis-point bin-step base it returns a
value. -/
theorem power_no_bound_cex :
    (2 ^ 20 ≤ (1048576 : Int).natAbs) ∧
    ((BinHelper.getBPValue 1).bind (fun bp => BinHelper.power bp 1048576)).isOk = true :=
  ⟨by decide, rfl⟩

theorem runOps_supplyIndex_mono_witness :
    stC1.supplyIndex "A" ≤ c9out.supplyIndex "A" :=
  runOps_supplyIndex_mono c9ops stC1 c9out rfl "A"

theorem liquidate_raw_collateral_witness :
    c10out.userSupplyIndex "b" "C" = stC10.userSupplyIndex "b" "C" ∧
    c10s1.userCollateral "b" "C" = stC10.userCollateral "b" "C" ∧
    482 ≤ stC10.userCollateral "b" "C" ∧
    c10out.userCollateral "b" "C" = stC10.userCollateral "b" "C" - 482 :=
  liquidate_raw_collateral env0 stC10 "b" "C" "D" 450 c10out c10s1
    (AccountHealth.mk 1000000000000000000000 900000000000000000000 888888888888888888 false)
    450 482 rfl rfl
